import Mathlib

/-!
# Verification of the route-genius delivery-route optimizer

A shallow embedding of `src/lib/dp-solver.ts` (and the data model of
`src/lib/types.ts`) of the route-genius repository, together with theorems
settling the specification claims about it.

Modelling conventions, used consistently below:

* JavaScript `number` values (IEEE-754 doubles) are idealized as exact real
  numbers `ℝ`; `Date` objects are their millisecond timestamps, again `ℝ`.
  `Infinity` (the initial minimum of the Bellman loop) is modelled by `⊤`
  of `WithTop ℝ`.
* Decisions on real numbers inside definitions use classical decidability,
  so the solver definitions live in a `noncomputable section`; all string
  and list bookkeeping stays computable.
* JavaScript `Set<string>` iteration order is insertion order, so a set of
  order ids is modelled as a duplicate-free `List String` in insertion
  order; `Set.delete` is `List.erase`, and `new Set(xs)` is a dedup that
  keeps first occurrences.
* JavaScript `Map` is an association list in insertion order; `Map.get`
  finds the first (= only, keys are never re-set) matching key and
  `Map.set` of a fresh key appends.
* Strings produced purely for human display (the educational state
  descriptions, the Indonesian narrative sentences) are modelled
  structurally: a record keeps exactly the data interpolated into the
  sentence, because locale-dependent rendering (`toLocaleTimeString`,
  `toFixed` decoration) is environment-specific.  The memoization *key*
  (`create_state_key`), whose exact string structure the spec constrains,
  is modelled as a genuine `String`.
* `Number.prototype.toFixed(6)` is modelled by rounding to an integer
  number of micro-units (`jsToFixedSixKey`); this preserves exactly the
  equality behaviour of the formatted 6-decimal string, which is all the
  key construction and the claims use.
-/

namespace RouteGenius

/-- Model of `Location` from `types.ts`: a latitude/longitude pair in degrees. -/
structure Location where
  latitude : ℝ
  longitude : ℝ

/-- Model of `Order` from `types.ts`: a delivery request.  `order_time` and `due_time`
are the millisecond timestamps of the two `Date` fields. -/
structure Order where
  order_id : String
  latitude : ℝ
  longitude : ℝ
  order_time : ℝ
  due_time : ℝ

/-- Model of `Parameters` from `types.ts`: average speed (km/h), the three cost
weights, and the optional per-stop service time (minutes) read by
`dp-solver.ts` as `params.serviceTime ?? 5`. -/
structure Parameters where
  averageSpeed : ℝ
  alpha : ℝ
  beta : ℝ
  gamma : ℝ
  serviceTime : Option ℝ

/-- Constant `DEPOT_LOCATION` from `types.ts` (Pontianak city center). -/
noncomputable def DEPOT_LOCATION : Location :=
  { latitude := -0.0263, longitude := 109.3425 }

noncomputable section

open Real

/-- JavaScript `Math.atan2` restricted to the first quadrant
(`y ≥ 0`, `x ≥ 0`), the only region in which the Haversine formula calls
it: `atan2(y, x) = arctan (y/x)` for `x > 0`, `π/2` for `x = 0 < y`, and
`0` at the origin. -/
def jsAtan2 (y x : ℝ) : ℝ :=
  if 0 < x then Real.arctan (y / x)
  else if 0 < y then Real.pi / 2
  else 0

/-- Function `compute_distance` of `dp-solver.ts`: Haversine great-circle distance
in kilometers between two coordinates, Earth radius 6371 km. -/
def compute_distance (loc1 loc2 : Location) : ℝ :=
  let R : ℝ := 6371
  let lat1Rad := loc1.latitude * Real.pi / 180
  let lat2Rad := loc2.latitude * Real.pi / 180
  let deltaLat := (loc2.latitude - loc1.latitude) * Real.pi / 180
  let deltaLng := (loc2.longitude - loc1.longitude) * Real.pi / 180
  let a := Real.sin (deltaLat / 2) * Real.sin (deltaLat / 2) +
    Real.cos lat1Rad * Real.cos lat2Rad *
    (Real.sin (deltaLng / 2) * Real.sin (deltaLng / 2))
  let c := 2 * jsAtan2 (Real.sqrt a) (Real.sqrt (1 - a))
  R * c

/-- Function `compute_travel_time` of `dp-solver.ts`: minutes needed to cover
`distance` km at `speedKmh` km/h. -/
def compute_travel_time (distance speedKmh : ℝ) : ℝ :=
  distance / speedKmh * 60

/-- Function `compute_delay_penalty` of `dp-solver.ts`: minutes of lateness of
`arrivalTime` past `dueTime` (both ms timestamps), floored at zero. -/
def compute_delay_penalty (arrivalTime dueTime : ℝ) : ℝ :=
  max 0 ((arrivalTime - dueTime) / 60000)

/-- Result record of `compute_step_cost`. -/
structure StepCostBreakdown where
  totalCost : ℝ
  distanceCost : ℝ
  timeCost : ℝ
  delayCost : ℝ

/-- Function `compute_step_cost` of `dp-solver.ts`:
`α·distance + β·travelTime + γ·delayPenalty`, with the three components
kept separately. -/
def compute_step_cost (distance travelTime delayPenalty : ℝ)
    (params : Parameters) : StepCostBreakdown :=
  let distanceCost := params.alpha * distance
  let timeCost := params.beta * travelTime
  let delayCost := params.gamma * delayPenalty
  { totalCost := distanceCost + timeCost + delayCost
    distanceCost := distanceCost
    timeCost := timeCost
    delayCost := delayCost }

/-- JavaScript `Math.round`: round half toward positive infinity. -/
def jsRound (x : ℝ) : ℤ := ⌊x + 1 / 2⌋

/-- Model of `Number.prototype.toFixed(6)` as used by `create_state_key`:
the number of micro-units after rounding, rendered as a decimal string.
Two finite doubles get the same `toFixed(6)` output iff they agree after
rounding at the 6th decimal, which is the behaviour this model preserves
(the fixed `"x.xxxxxx"` decoration of the JS string is dropped). -/
def jsToFixedSixKey (x : ℝ) : String := toString (jsRound (x * 1000000))

end

/-- Lexicographic comparison of character lists, the order underlying the
default JavaScript `Array.prototype.sort()` string comparison (by code
unit; identical to Lean's `String` order on the ASCII ids used here). -/
def charListLe : List Char → List Char → Bool
  | [], _ => true
  | _ :: _, [] => false
  | a :: as, b :: bs => if a < b then true else if b < a then false else charListLe as bs

/-- The default JavaScript `Array.prototype.sort()` string comparison. -/
def jsStrLe (s t : String) : Bool := charListLe s.data t.data

/-- Insertion of a string into a sorted list by the default JavaScript
`Array.prototype.sort()` comparison. -/
def jsSortInsert (s : String) : List String → List String
  | [] => [s]
  | t :: ts => if jsStrLe s t then s :: t :: ts else t :: jsSortInsert s ts

/-- Default JavaScript `Array.prototype.sort()` on strings: lexicographic
insertion sort (stable, but the inputs here are duplicate-free anyway). -/
def jsSortStrings : List String → List String
  | [] => []
  | s :: ss => jsSortInsert s (jsSortStrings ss)

/-- JavaScript `Array.prototype.join(',')`. -/
def joinCommas : List String → String
  | [] => ""
  | [s] => s
  | s :: rest => s ++ "," ++ joinCommas rest

noncomputable section

/-- The latitude/longitude segment `"lat_lng"` of a state key. -/
def latLngSegment (loc : Location) : String :=
  jsToFixedSixKey loc.latitude ++ "_" ++ jsToFixedSixKey loc.longitude

/-- Function `create_state_key` of `dp-solver.ts`: the memoization key
`` `${latKey}_${lngKey}|${orderedIds}|${timeKey}` `` built from the
position formatted at 6-decimal precision, the sorted comma-joined
remaining order ids, and the clock time rounded to whole minutes. -/
def create_state_key (currentLocation : Location)
    (remainingOrderIds : List String) (currentTime : ℝ) : String :=
  let orderedIds := joinCommas (jsSortStrings remainingOrderIds)
  let timeKey := jsRound (currentTime / 60000)
  latLngSegment currentLocation ++ ("|" ++ orderedIds ++ "|" ++ toString timeKey)

end

/-- Structural model of the string built by `describe_state` of
`dp-solver.ts`: the data interpolated into the human-readable state
description (position at reduced precision, remaining-order count,
locale-formatted clock time). -/
structure StateDescription where
  latitude : ℝ
  longitude : ℝ
  remainingCount : ℕ
  timeMs : ℝ

/-- Model of `describe_state` of `dp-solver.ts` (educational display only). -/
def describe_state (currentLocation : Location)
    (remainingOrderIds : List String) (currentTime : ℝ) : StateDescription :=
  { latitude := currentLocation.latitude
    longitude := currentLocation.longitude
    remainingCount := remainingOrderIds.length
    timeMs := currentTime }

/-- Interface `DPResult` of `dp-solver.ts`: a memoized cost-to-go (which
starts as JavaScript `Infinity`, hence `WithTop ℝ`) and the chosen next
order id. -/
structure DPResult where
  cost : WithTop ℝ
  nextOrderId : Option String

/-- The three trace actions of interface `RecursionStep` of `types.ts`. -/
inductive RecAction where
  | evaluate
  | memoHit
  | memoStore

/-- Interface `RecursionStep` of `types.ts`: one entry of the educational
recursion trace. -/
structure RecursionStep where
  depth : ℕ
  stateDescription : StateDescription
  action : RecAction
  selectedOrder : Option String
  cost : Option (WithTop ℝ)

/-- The mutable context of one `dp_solve` invocation: the memoization
`Map` (association list in insertion order) and the statistics counters
`statesEvaluated`, `memoHits`, `maxDepth`, `recursionTrace`. -/
structure SolveState where
  memo : List (String × DPResult)
  statesEvaluated : ℕ
  memoHits : ℕ
  maxDepth : ℕ
  recursionTrace : List RecursionStep

/-- Lookup in the memoization `Map`: first entry with the given key
(keys are stored at most once, so this is JavaScript `Map.get`). -/
def memoFind (memo : List (String × DPResult)) (key : String) : Option DPResult :=
  match memo with
  | [] => none
  | (k, v) :: rest => if k = key then some v else memoFind rest key

/-- Model of the guarded `recursionTrace.push(...)` sites of
`dp-solver.ts`: append the entry only while fewer than 50 entries exist. -/
def tracePush (st : SolveState) (entry : RecursionStep) : SolveState :=
  if st.recursionTrace.length < 50 then
    { st with recursionTrace := st.recursionTrace ++ [entry] }
  else st

/-- Model of `orderMap.get`: the `orderMap` is built by consecutive
`Map.set` calls over the order list, so a lookup returns the last order
carrying the id. -/
def jsMapGet (orders : List Order) (id : String) : Option Order :=
  (orders.filter (fun o => o.order_id = id)).getLast?

/-- Model of building a JavaScript `Set` from a list: drop later
duplicates, keeping first occurrences in insertion order. -/
def jsSetDedup : List String → List String
  | [] => []
  | x :: xs => x :: jsSetDedup (xs.filter (fun y => y ≠ x))
termination_by l => l.length
decreasing_by
  simp only [List.length_cons]
  exact Nat.lt_succ_of_le (List.length_filter_le _ _)

noncomputable section

/-- Order value standing for the `undefined` produced by a failed
`orderMap.get(id)!` dereference (a runtime `TypeError` in JavaScript);
never reached by the lookups performed in the theorems below, because
their ids are always ids of the order list. -/
def undefinedOrder : Order :=
  { order_id := "", latitude := 0, longitude := 0, order_time := 0, due_time := 0 }

/-- The data computed for one candidate transition (lines 296-314 and
388-401 of `dp-solver.ts`). -/
structure TransitionData where
  orderLocation : Location
  distance : ℝ
  travelTime : ℝ
  serviceTime : ℝ
  arrivalTimeMs : ℝ
  delayPenalty : ℝ
  cost : StepCostBreakdown

/-- The per-candidate transition computation of `dp_recursive`
(`dp-solver.ts` lines 296-314): distance, travel time, service-time
defaulted arrival, lateness against the order's due time and weighted
step cost. -/
def searchTransition (params : Parameters) (currentLocation : Location)
    (order : Order) (currentTime : ℝ) : TransitionData :=
  let orderLocation : Location := { latitude := order.latitude, longitude := order.longitude }
  let distance := compute_distance currentLocation orderLocation
  let travelTime := compute_travel_time distance params.averageSpeed
  let serviceTime := params.serviceTime.getD 5
  let arrivalTimeMs := currentTime + (travelTime + serviceTime) * 60000
  let delayPenalty := compute_delay_penalty arrivalTimeMs order.due_time
  { orderLocation := orderLocation
    distance := distance
    travelTime := travelTime
    serviceTime := serviceTime
    arrivalTimeMs := arrivalTimeMs
    delayPenalty := delayPenalty
    cost := compute_step_cost distance travelTime delayPenalty params }

/-- The transition recomputation of the policy-extraction loop
(`dp-solver.ts` lines 388-401), kept as its own definition because the
source duplicates the code of the search-side transition. -/
def extractTransition (params : Parameters) (currentLoc : Location)
    (order : Order) (currentTime : ℝ) : TransitionData :=
  let orderLocation : Location := { latitude := order.latitude, longitude := order.longitude }
  let distance := compute_distance currentLoc orderLocation
  let travelTime := compute_travel_time distance params.averageSpeed
  let serviceTime := params.serviceTime.getD 5
  let arrivalTimeMs := currentTime + (travelTime + serviceTime) * 60000
  let delayPenalty := compute_delay_penalty arrivalTimeMs order.due_time
  { orderLocation := orderLocation
    distance := distance
    travelTime := travelTime
    serviceTime := serviceTime
    arrivalTimeMs := arrivalTimeMs
    delayPenalty := delayPenalty
    cost := compute_step_cost distance travelTime delayPenalty params }

/-- The bookkeeping `dp_recursive` performs on a memo miss before its
candidate loop: `statesEvaluated++` and the guarded `evaluate` trace push. -/
def evalBookkeep (currentLocation : Location) (remainingOrderIds : List String)
    (currentTime : ℝ) (depth : ℕ) (st : SolveState) : SolveState :=
  tracePush { st with statesEvaluated := st.statesEvaluated + 1 }
    { depth := depth
      stateDescription := describe_state currentLocation remainingOrderIds currentTime
      action := RecAction.evaluate
      selectedOrder := none
      cost := none }

mutual

/-- Function `dp_recursive` of `dp-solver.ts`: the top-down memoized
Bellman recursion.  The `fuel` argument makes the recursion structural;
`dp_solve` passes the size of the full remaining set, and since every
recursive call removes exactly one id while consuming one unit of fuel,
the fuel-exhaustion arm (which returns the base-case value) is never
reached from `dp_solve`.  The state `st` threads the memo table and the
statistics counters that the source mutates. -/
def dp_recursive (orders : List Order) (params : Parameters) (fuel : ℕ)
    (currentLocation : Location) (remainingOrderIds : List String)
    (currentTime : ℝ) (depth : ℕ) (st : SolveState) : DPResult × SolveState :=
  let st := { st with maxDepth := max st.maxDepth depth }
  if remainingOrderIds = [] then
    ({ cost := ((0 : ℝ) : WithTop ℝ), nextOrderId := none }, st)
  else
    match fuel with
    | 0 => ({ cost := ((0 : ℝ) : WithTop ℝ), nextOrderId := none }, st)
    | fuel' + 1 =>
      let stateKey := create_state_key currentLocation remainingOrderIds currentTime
      match memoFind st.memo stateKey with
      | some cached =>
        let st := { st with memoHits := st.memoHits + 1 }
        let st := tracePush st
          { depth := depth
            stateDescription := describe_state currentLocation remainingOrderIds currentTime
            action := RecAction.memoHit
            selectedOrder := none
            cost := none }
        (cached, st)
      | none =>
        let st := evalBookkeep currentLocation remainingOrderIds currentTime depth st
        let loopOut := bellmanLoop orders params fuel' currentLocation remainingOrderIds
          currentTime depth remainingOrderIds ⊤ none st
        let result : DPResult := { cost := loopOut.1, nextOrderId := loopOut.2.1 }
        let st := { loopOut.2.2 with memo := loopOut.2.2.memo ++ [(stateKey, result)] }
        let st := tracePush st
          { depth := depth
            stateDescription := describe_state currentLocation remainingOrderIds currentTime
            action := RecAction.memoStore
            selectedOrder := loopOut.2.1
            cost := some loopOut.1 }
        (result, st)
termination_by (fuel, 0, 0)

/-- The `for (const orderId of remainingOrderIds)` Bellman loop of
`dp_recursive` (`dp-solver.ts` lines 289-335): fold over the candidates
in set-iteration order, carrying the incumbent `minCost` (initially
`Infinity`) and `bestNextOrder` (initially `null`), replacing the
incumbent exactly when a candidate total is strictly smaller. -/
def bellmanLoop (orders : List Order) (params : Parameters) (fuel : ℕ)
    (currentLocation : Location) (remainingOrderIds : List String)
    (currentTime : ℝ) (depth : ℕ) (cands : List String)
    (minCost : WithTop ℝ) (bestNextOrder : Option String) (st : SolveState) :
    WithTop ℝ × Option String × SolveState :=
  match cands with
  | [] => (minCost, bestNextOrder, st)
  | orderId :: rest =>
    let order := (jsMapGet orders orderId).getD undefinedOrder
    let tr := searchTransition params currentLocation order currentTime
    let newRemaining := remainingOrderIds.erase orderId
    let rec' := dp_recursive orders params fuel tr.orderLocation newRemaining
      tr.arrivalTimeMs (depth + 1) st
    let totalCost : WithTop ℝ := ((tr.cost.totalCost : ℝ) : WithTop ℝ) + rec'.1.cost
    if totalCost < minCost then
      bellmanLoop orders params fuel currentLocation remainingOrderIds currentTime
        depth rest totalCost (some orderId) rec'.2
    else
      bellmanLoop orders params fuel currentLocation remainingOrderIds currentTime
        depth rest minCost bestNextOrder rec'.2
termination_by (fuel, 1, cands.length)

end

/-- Record `costBreakdown` of interface `DeliveryStep` of `types.ts`. -/
structure CostBreakdown where
  distanceCost : ℝ
  timeCost : ℝ
  delayCost : ℝ

/-- Interface `DeliveryStep` of `types.ts`: one stop of the extracted
schedule (`arrivalTime` is the millisecond timestamp of the `Date`). -/
structure DeliveryStep where
  order : Order
  arrivalTime : ℝ
  distance : ℝ
  travelTime : ℝ
  delayPenalty : ℝ
  stepCost : ℝ
  costBreakdown : CostBreakdown

/-- Structural model of the `reason` sentence of a `DecisionExplanation`
(`dp-solver.ts` lines 404-421): the four branches of the decision table
with the data each sentence interpolates. -/
inductive ReasonCase where
  | onTimeDelivery (minutesEarly : ℝ) (distanceKm : ℝ)
  | lateButCheapest (delayMinutes : ℝ)
  | onlyRemainingOrder
  | optimalAmongAlternatives (altCount : ℕ)

/-- Interface `DecisionExplanation` of `types.ts`. -/
structure DecisionExplanation where
  step : ℕ
  orderId : String
  reason : ReasonCase
  alternativesConsidered : ℕ

/-- The mutable variables of the policy-extraction loop of `dp_solve`
(`dp-solver.ts` lines 364-456): position, clock, remaining set, step
counter, the growing schedule and decision list, and the running totals. -/
structure ExtractState where
  currentLoc : Location
  currentTime : ℝ
  remainingIds : List String
  stepNumber : ℕ
  sequence : List DeliveryStep
  keyDecisions : List DecisionExplanation
  totalDistance : ℝ
  totalTravelTime : ℝ
  totalDelayPenalty : ℝ
  totalCost : ℝ
  totalDistanceCost : ℝ
  totalTimeCost : ℝ
  totalDelayCost : ℝ

/-- The policy-extraction `while (remainingIds.size > 0)` loop of
`dp_solve` (`dp-solver.ts` lines 381-456).  The source loop is unbounded;
`fuel` bounds the number of modelled iterations, and the returned flag is
`true` exactly when the loop ended by its own exit or `break` within that
bound (so a `true` flag means the model agrees with the JavaScript run).
On a memo miss, or a cached `null` decision, the loop `break`s silently. -/
def extractLoop (orders : List Order) (params : Parameters)
    (memo : List (String × DPResult)) :
    ℕ → ExtractState → ExtractState × Bool := fun fuel es =>
  if es.remainingIds = [] then (es, true)
  else
    match fuel with
    | 0 => (es, false)
    | fuel' + 1 =>
      let stateKey := create_state_key es.currentLoc es.remainingIds es.currentTime
      match memoFind memo stateKey with
      | none => (es, true)
      | some result =>
        match result.nextOrderId with
        | none => (es, true)
        | some nextId =>
          let order := (jsMapGet orders nextId).getD undefinedOrder
          let tr := extractTransition params es.currentLoc order es.currentTime
          let alternativesCount := es.remainingIds.length - 1
          let reason :=
            if tr.delayPenalty = 0 ∧ 0 < alternativesCount then
              ReasonCase.onTimeDelivery ((order.due_time - tr.arrivalTimeMs) / 60000) tr.distance
            else if 0 < tr.delayPenalty then
              ReasonCase.lateButCheapest tr.delayPenalty
            else if alternativesCount = 0 then
              ReasonCase.onlyRemainingOrder
            else
              ReasonCase.optimalAmongAlternatives (alternativesCount + 1)
          let step : DeliveryStep :=
            { order := order
              arrivalTime := tr.arrivalTimeMs
              distance := tr.distance
              travelTime := tr.travelTime
              delayPenalty := tr.delayPenalty
              stepCost := tr.cost.totalCost
              costBreakdown :=
                { distanceCost := tr.cost.distanceCost
                  timeCost := tr.cost.timeCost
                  delayCost := tr.cost.delayCost } }
          extractLoop orders params memo fuel'
            { currentLoc := tr.orderLocation
              currentTime := tr.arrivalTimeMs
              remainingIds := es.remainingIds.erase nextId
              stepNumber := es.stepNumber + 1
              sequence := es.sequence ++ [step]
              keyDecisions := es.keyDecisions ++
                [{ step := es.stepNumber
                   orderId := order.order_id
                   reason := reason
                   alternativesConsidered := alternativesCount + 1 }]
              totalDistance := es.totalDistance + tr.distance
              totalTravelTime := es.totalTravelTime + tr.travelTime
              totalDelayPenalty := es.totalDelayPenalty + tr.delayPenalty
              totalCost := es.totalCost + tr.cost.totalCost
              totalDistanceCost := es.totalDistanceCost + tr.cost.distanceCost
              totalTimeCost := es.totalTimeCost + tr.cost.timeCost
              totalDelayCost := es.totalDelayCost + tr.cost.delayCost }

/-- Structural model of the `summary` sentence of the explanation
(`dp-solver.ts` lines 497-508): the data the sentence interpolates;
`delayedOrdersInfo` is set exactly when the `hasDelays` branch is taken
and carries the delayed-order count and total delay penalty. -/
structure SummaryFacts where
  ordersCount : ℕ
  totalDistance : ℝ
  totalTravelTime : ℝ
  delayedOrdersInfo : Option (ℕ × ℝ)
  statesEvaluated : ℕ
  memoHits : ℕ

/-- The four branches of the trade-off narrative on the dominant weight
(`dp-solver.ts` lines 513-521). -/
inductive DominantWeight where
  | delayPenaltyDominant
  | distanceDominant
  | travelTimeDominant
  | balancedWeights

/-- The percentage `component / total * 100` computed by the trade-off
narrative (`dp-solver.ts` lines 524-526).  The JavaScript division is
unguarded; dividing by a zero total produces a non-finite value (`NaN`
for the only reachable case `0/0`, since a zero total forces all three
components to zero), modelled as `none`. -/
def jsDivPct (component total : ℝ) : Option ℝ :=
  if total = 0 then none else some (component / total * 100)

/-- Structural model of the `tradeoffAnalysis` narrative of
`dp-solver.ts` lines 511-526: the weights shown, the dominant-weight
branch taken, and the three percentage attributions. -/
structure TradeoffFacts where
  alpha : ℝ
  beta : ℝ
  gamma : ℝ
  dominant : DominantWeight
  distancePctOfTotal : Option ℝ
  timePctOfTotal : Option ℝ
  delayPctOfTotal : Option ℝ

/-- Interface `RouteExplanation` of `types.ts`, with the two narrative
strings modelled structurally. -/
structure RouteExplanation where
  summary : SummaryFacts
  keyDecisions : List DecisionExplanation
  tradeoffAnalysis : TradeoffFacts

/-- JavaScript `parseInt` as used on a state-key segment; a non-numeric
segment gives `NaN`, conflated here with 0 (the value is display-only). -/
def jsParseIntPart (s : String) : ℤ := (s.toInt?).getD 0

/-- Interface `MemoizedStateExample` of `types.ts`; the
`currentLocationDescription` keeps the two coordinate substrings and
`currentTimeFormattedMs` the millisecond value whose locale-formatted
rendering the source displays. -/
structure MemoizedStateExample where
  stateKey : String
  currentLocationDescription : String × String
  remainingOrderIds : List String
  currentTimeFormattedMs : ℝ
  optimalCost : WithTop ℝ
  bestNextOrder : Option String

/-- One iteration of the memoization-example generation of `dp_solve`
(`dp-solver.ts` lines 466-488): re-parse a stored key into its display
fields. -/
def memoExample (entry : String × DPResult) : MemoizedStateExample :=
  let parts := entry.1.splitOn "|"
  let coordParts := (parts.getD 0 "").splitOn "_"
  let idsPart := parts.getD 1 ""
  let orderIds := if idsPart = "" then [] else (idsPart.splitOn ",").filter (fun id => id ≠ "")
  let timePart := parts.getD 2 ""
  let timeMinutes := jsParseIntPart (if timePart = "" then "0" else timePart)
  { stateKey := entry.1
    currentLocationDescription := (coordParts.getD 0 "", coordParts.getD 1 "")
    remainingOrderIds := orderIds
    currentTimeFormattedMs := (timeMinutes : ℝ) * 60000
    optimalCost := entry.2.cost
    bestNextOrder := entry.2.nextOrderId }

/-- Interface `DPStatistics` of `types.ts`. -/
structure DPStatistics where
  totalStatesEvaluated : ℕ
  totalMemoHits : ℕ
  uniqueStatesStored : ℕ
  maxRecursionDepth : ℕ
  memoizationExamples : List MemoizedStateExample
  recursionTrace : List RecursionStep

/-- Record `costContributions` of interface `OptimizationResult`. -/
structure CostContributions where
  distanceContribution : ℝ
  timeContribution : ℝ
  delayContribution : ℝ

/-- Interface `OptimizationResult` of `types.ts`.  `computationTime` is
wall-clock duration (`performance.now()` differences), not modelled and
fixed at 0. -/
structure OptimizationResult where
  sequence : List DeliveryStep
  totalDistance : ℝ
  totalTravelTime : ℝ
  totalDelayPenalty : ℝ
  totalCost : ℝ
  computationTime : ℝ
  dpStatistics : DPStatistics
  costContributions : CostContributions
  explanation : RouteExplanation

/-- The starting clock of `dp_solve`:
`Math.min(...orders.map(o => o.order_time.getTime()))`.  JavaScript
`Math.min()` of an empty spread is `Infinity`; for an empty order list
the value is only ever passed to a base-case `dp_recursive` call and to
a zero-iteration extraction loop, so the empty case is modelled by an
arbitrary real. -/
def startingTimeOf (orders : List Order) : ℝ :=
  match orders.map (fun o => o.order_time) with
  | [] => 0
  | t :: ts => ts.foldl min t

/-- Function `dp_solve` of `dp-solver.ts`: run the memoized search from
the depot with the full id set and the earliest order time, extract the
schedule by replaying the memo, and assemble totals, statistics and the
explanation.  `extractionFuel` bounds the modelled iterations of the
unbounded extraction `while` loop (see `extractLoop`); the returned flag
is `true` iff the loop ended within the bound, in which case the model
output matches the JavaScript run. -/
def dp_solve (extractionFuel : ℕ) (orders : List Order) (params : Parameters) :
    OptimizationResult × Bool :=
  let startingTime := startingTimeOf orders
  let allOrderIds := jsSetDedup (orders.map (fun o => o.order_id))
  let run := dp_recursive orders params allOrderIds.length DEPOT_LOCATION
    allOrderIds startingTime 0
    { memo := [], statesEvaluated := 0, memoHits := 0, maxDepth := 0, recursionTrace := [] }
  let st := run.2
  let ex := extractLoop orders params st.memo extractionFuel
    { currentLoc := DEPOT_LOCATION
      currentTime := startingTime
      remainingIds := allOrderIds
      stepNumber := 1
      sequence := []
      keyDecisions := []
      totalDistance := 0
      totalTravelTime := 0
      totalDelayPenalty := 0
      totalCost := 0
      totalDistanceCost := 0
      totalTimeCost := 0
      totalDelayCost := 0 }
  let es := ex.1
  let delayOrdersCount := (es.sequence.filter (fun s => 0 < s.delayPenalty)).length
  let summary : SummaryFacts :=
    { ordersCount := orders.length
      totalDistance := es.totalDistance
      totalTravelTime := es.totalTravelTime
      delayedOrdersInfo :=
        if 0 < es.totalDelayPenalty then some (delayOrdersCount, es.totalDelayPenalty) else none
      statesEvaluated := st.statesEvaluated
      memoHits := st.memoHits }
  let dominant :=
    if params.gamma > params.alpha ∧ params.gamma > params.beta then
      DominantWeight.delayPenaltyDominant
    else if params.alpha > params.beta ∧ params.alpha > params.gamma then
      DominantWeight.distanceDominant
    else if params.beta > params.alpha ∧ params.beta > params.gamma then
      DominantWeight.travelTimeDominant
    else DominantWeight.balancedWeights
  let tradeoff : TradeoffFacts :=
    { alpha := params.alpha
      beta := params.beta
      gamma := params.gamma
      dominant := dominant
      distancePctOfTotal := jsDivPct es.totalDistanceCost es.totalCost
      timePctOfTotal := jsDivPct es.totalTimeCost es.totalCost
      delayPctOfTotal := jsDivPct es.totalDelayCost es.totalCost }
  let dpStatistics : DPStatistics :=
    { totalStatesEvaluated := st.statesEvaluated
      totalMemoHits := st.memoHits
      uniqueStatesStored := st.memo.length
      maxRecursionDepth := st.maxDepth
      memoizationExamples := (st.memo.take 5).map memoExample
      recursionTrace := st.recursionTrace.take 30 }
  ({ sequence := es.sequence
     totalDistance := es.totalDistance
     totalTravelTime := es.totalTravelTime
     totalDelayPenalty := es.totalDelayPenalty
     totalCost := es.totalCost
     computationTime := 0
     dpStatistics := dpStatistics
     costContributions :=
       { distanceContribution := es.totalDistanceCost
         timeContribution := es.totalTimeCost
         delayContribution := es.totalDelayCost }
     explanation :=
       { summary := summary
         keyDecisions := es.keyDecisions
         tradeoffAnalysis := tradeoff } }, ex.2)

/-- Modelled from the spec: §8 ("brute-force enumeration of all
orderings") and claim C1 define a permutation's total weighted cost as
the sum over its steps of the weighted step cost, computed from the
given position and clock using the same arrival-time recurrence as the
solver.  This is the comparison baseline for the optimality claim; no
enumeration code exists in `src/`. -/
def orderingCostFrom (params : Parameters) :
    Location → ℝ → List Order → ℝ := fun loc t perm =>
  match perm with
  | [] => 0
  | o :: rest =>
    let tr := searchTransition params loc o t
    tr.cost.totalCost + orderingCostFrom params tr.orderLocation tr.arrivalTimeMs rest

/-- Total weighted cost of delivering `perm` in that order starting at
the depot with the earliest order time of `orders` as start clock (the
solver's own initial state). -/
def bruteOrderingCost (orders : List Order) (params : Parameters)
    (perm : List Order) : ℝ :=
  orderingCostFrom params DEPOT_LOCATION (startingTimeOf orders) perm

/-- Minimum of a list of extended reals, `⊤` for the empty list. -/
def minList : List (WithTop ℝ) → WithTop ℝ
  | [] => ⊤
  | x :: xs => min x (minList xs)

/-- Index of the first occurrence of the minimum in a list of extended
reals (0 for the empty list). -/
def firstMinIdx : List (WithTop ℝ) → ℕ
  | [] => 0
  | x :: xs => if x ≤ minList xs then 0 else firstMinIdx xs + 1

/-- The list of candidate totals `stepCost + f(S')` exactly as the
Bellman loop of `dp_recursive` computes them, in iteration order,
threading the solver state through the recursive calls the same way
`bellmanLoop` does. -/
def candTotals (orders : List Order) (params : Parameters) (fuel : ℕ)
    (currentLocation : Location) (remainingOrderIds : List String)
    (currentTime : ℝ) (depth : ℕ) :
    List String → SolveState → List (WithTop ℝ) := fun cands st =>
  match cands with
  | [] => []
  | orderId :: rest =>
    let order := (jsMapGet orders orderId).getD undefinedOrder
    let tr := searchTransition params currentLocation order currentTime
    let rec' := dp_recursive orders params fuel tr.orderLocation
      (remainingOrderIds.erase orderId) tr.arrivalTimeMs (depth + 1) st
    (((tr.cost.totalCost : ℝ) : WithTop ℝ) + rec'.1.cost) ::
      candTotals orders params fuel currentLocation remainingOrderIds currentTime depth
        rest rec'.2

/-!
## Concrete scenarios

All scenario requests are placed at the depot coordinates, which keeps
every distance zero and all arithmetic rational.  Ids, timestamps and
weights satisfy the validation contract of the spec (§6): ids unique and
non-empty, coordinates finite and in range, speed positive and weights
non-negative where the claim under test assumes validated parameters.

`collisionOrders` is the key-collision scenario: the id `"a,b"` is a
legal id (the CSV ingester accepts quoted commas), and the remaining
sets `{"a","b"}` and `{"a,b"}` produce the same sorted comma-joined
segment `"a,b"`.  With a 0.2-minute service time the states reached
after one and after two deliveries share the same rounded minute, so the
colliding keys are actually reused within one solve.
-/

/-- Scenario request `a`: at the depot, issued at 3000 ms, one minute
overdue by the time a first delivery can arrive (15000 ms). -/
def collisionOrderA : Order :=
  { order_id := "a", latitude := -0.0263, longitude := 109.3425
    order_time := 3000, due_time := -45000 }

/-- Scenario request `b`: same position and timestamps profile as `a`. -/
def collisionOrderB : Order :=
  { order_id := "b", latitude := -0.0263, longitude := 109.3425
    order_time := 3000, due_time := -45000 }

/-- Scenario request with the comma-carrying id `"a,b"`: at the depot,
two minutes overdue at the first possible arrival. -/
def collisionOrderAB : Order :=
  { order_id := "a,b", latitude := -0.0263, longitude := 109.3425
    order_time := 3000, due_time := -105000 }

/-- The key-collision request list. -/
def collisionOrders : List Order := [collisionOrderA, collisionOrderB, collisionOrderAB]

/-- Validated parameters for the collision scenario: positive speed,
non-negative weights (pure-lateness objective), 0.2-minute service time. -/
def collisionParams : Parameters :=
  { averageSpeed := 1, alpha := 0, beta := 0, gamma := 1, serviceTime := some (1 / 5) }

/-- Single request used for the zero-total-cost narrative scenario. -/
def zeroCostOrder : Order :=
  { order_id := "z", latitude := -0.0263, longitude := 109.3425
    order_time := 0, due_time := 0 }

/-- All three weights zero (legal per §6: a zero weight is inert), so
every step cost and hence the total weighted cost is zero. -/
def zeroWeightParams : Parameters :=
  { averageSpeed := 30, alpha := 0, beta := 0, gamma := 0, serviceTime := none }

/-- Single request used for the missing-validation scenarios. -/
def plainOrder : Order :=
  { order_id := "n", latitude := -0.0263, longitude := 109.3425
    order_time := 0, due_time := -60000 }

/-- Parameters with a negative lateness weight (an `InputFault` trigger
per §7). -/
def negWeightParams : Parameters :=
  { averageSpeed := 30, alpha := 0, beta := 0, gamma := -1, serviceTime := some 0 }

/-- Parameters with a negative average speed (an `InputFault` trigger
per §7). -/
def negSpeedParams : Parameters :=
  { averageSpeed := -5, alpha := 1, beta := 1, gamma := 1, serviceTime := some 0 }

/-- First of the two exactly-tied requests of the tie-break scenario. -/
def tieOrderX : Order :=
  { order_id := "x", latitude := -0.0263, longitude := 109.3425
    order_time := 0, due_time := 0 }

/-- Second of the two exactly-tied requests. -/
def tieOrderY : Order :=
  { order_id := "y", latitude := -0.0263, longitude := 109.3425
    order_time := 0, due_time := 0 }

/-- The tie-break request list: both requests are at the same position
with the same due time, so both candidate totals are exactly equal. -/
def tieOrders : List Order := [tieOrderX, tieOrderY]

/-- Validated parameters for the tie-break scenario (zero service time,
so the two orderings are exactly symmetric). -/
def tieParams : Parameters :=
  { averageSpeed := 1, alpha := 0, beta := 0, gamma := 1, serviceTime := some 0 }

/-- The empty solve state every `dp_solve` run starts from. -/
def initialSolveState : SolveState :=
  { memo := [], statesEvaluated := 0, memoHits := 0, maxDepth := 0, recursionTrace := [] }

/-- An extraction-loop state with one undelivered request, used to
exhibit the silent-break behaviour against an empty memo. -/
def breakDemoState : ExtractState :=
  { currentLoc := DEPOT_LOCATION
    currentTime := 0
    remainingIds := ["q"]
    stepNumber := 1
    sequence := []
    keyDecisions := []
    totalDistance := 0
    totalTravelTime := 0
    totalDelayPenalty := 0
    totalCost := 0
    totalDistanceCost := 0
    totalTimeCost := 0
    totalDelayCost := 0 }

end

/-!
## Theorems

Helper lemmas first, then one theorem per claim (with its witness or
counterexample where required), in claim order at the end of each
thematic group.
-/

/-- Appending to a fixed prefix is injective: used to compare state keys
that share their (opaque) formatted-coordinate segment. -/
@[simp]
theorem str_append_right_inj (P a b : String) : P ++ a = P ++ b ↔ a = b := by
  constructor
  · intro h
    have hd := congrArg String.data h
    simp only [String.data_append] at hd
    exact String.ext (List.append_cancel_left hd)
  · intro h; rw [h]

/-- Unfolding of the depot constant to its coordinate literal. -/
@[simp]
theorem DEPOT_LOCATION_eq :
    DEPOT_LOCATION = { latitude := -0.0263, longitude := 109.3425 } := rfl

/-- Evaluation rule for `jsRound` from a bracketing of the argument. -/
theorem jsRound_eq_of (x : ℝ) (n : ℤ) (h1 : (n : ℝ) ≤ x + 1 / 2)
    (h2 : x + 1 / 2 < n + 1) : jsRound x = n := by
  unfold jsRound
  rw [Int.floor_eq_iff]
  exact ⟨h1, by linarith⟩

@[simp] theorem jsRound_0 : jsRound ((0 : ℝ) / 60000) = 0 :=
  jsRound_eq_of _ 0 (by norm_num) (by norm_num)

@[simp] theorem jsRound_3000 : jsRound ((3000 : ℝ) / 60000) = 0 :=
  jsRound_eq_of _ 0 (by norm_num) (by norm_num)

@[simp] theorem jsRound_15000 : jsRound ((15000 : ℝ) / 60000) = 0 :=
  jsRound_eq_of _ 0 (by norm_num) (by norm_num)

@[simp] theorem jsRound_27000 : jsRound ((27000 : ℝ) / 60000) = 0 :=
  jsRound_eq_of _ 0 (by norm_num) (by norm_num)

@[simp] theorem jsRound_39000 : jsRound ((39000 : ℝ) / 60000) = 1 :=
  jsRound_eq_of _ 1 (by norm_num) (by norm_num)

@[simp] theorem intCast_zero_toString : toString (0 : ℤ) = "0" := rfl

@[simp] theorem intCast_one_toString : toString (1 : ℤ) = "1" := rfl

/-- The extraction-side transition is literally the search-side one. -/
theorem extractTransition_eq_searchTransition :
    extractTransition = searchTransition := rfl

/-!
### Ground evaluation facts for the concrete scenarios

Key-suffix evaluations (the coordinate segment stays opaque and cancels
by `str_append_right_inj`), list erasures, map lookups and field
projections, all at the literals occurring in the scenario runs.
-/

@[simp] theorem key_abab_3000 (loc : Location) :
    create_state_key loc ["a", "b", "a,b"] 3000 = latLngSegment loc ++ "|a,a,b,b|0" := by
  simp only [create_state_key, jsRound_3000]; rfl

@[simp] theorem key_bab_15000 (loc : Location) :
    create_state_key loc ["b", "a,b"] 15000 = latLngSegment loc ++ "|a,b,b|0" := by
  simp only [create_state_key, jsRound_15000]; rfl

@[simp] theorem key_ab_27000 (loc : Location) :
    create_state_key loc ["a,b"] 27000 = latLngSegment loc ++ "|a,b|0" := by
  simp only [create_state_key, jsRound_27000]; rfl

@[simp] theorem key_b_27000 (loc : Location) :
    create_state_key loc ["b"] 27000 = latLngSegment loc ++ "|b|0" := by
  simp only [create_state_key, jsRound_27000]; rfl

@[simp] theorem key_aab_15000 (loc : Location) :
    create_state_key loc ["a", "a,b"] 15000 = latLngSegment loc ++ "|a,a,b|0" := by
  simp only [create_state_key, jsRound_15000]; rfl

@[simp] theorem key_a_27000 (loc : Location) :
    create_state_key loc ["a"] 27000 = latLngSegment loc ++ "|a|0" := by
  simp only [create_state_key, jsRound_27000]; rfl

@[simp] theorem key_apb_15000 (loc : Location) :
    create_state_key loc ["a", "b"] 15000 = latLngSegment loc ++ "|a,b|0" := by
  simp only [create_state_key, jsRound_15000]; rfl

@[simp] theorem key_apb_27000 (loc : Location) :
    create_state_key loc ["a", "b"] 27000 = latLngSegment loc ++ "|a,b|0" := by
  simp only [create_state_key, jsRound_27000]; rfl

@[simp] theorem key_apb_39000 (loc : Location) :
    create_state_key loc ["a", "b"] 39000 = latLngSegment loc ++ "|a,b|1" := by
  simp only [create_state_key, jsRound_39000]; rfl

@[simp] theorem key_apb_3000 (loc : Location) :
    create_state_key loc ["a", "b"] 3000 = latLngSegment loc ++ "|a,b|0" := by
  simp only [create_state_key, jsRound_3000]; rfl

@[simp] theorem key_ab_3000 (loc : Location) :
    create_state_key loc ["a,b"] 3000 = latLngSegment loc ++ "|a,b|0" := by
  simp only [create_state_key, jsRound_3000]; rfl

@[simp] theorem key_xy_0 (loc : Location) :
    create_state_key loc ["x", "y"] 0 = latLngSegment loc ++ "|x,y|0" := by
  simp only [create_state_key, jsRound_0]; rfl

@[simp] theorem key_y_0 (loc : Location) :
    create_state_key loc ["y"] 0 = latLngSegment loc ++ "|y|0" := by
  simp only [create_state_key, jsRound_0]; rfl

@[simp] theorem key_x_0 (loc : Location) :
    create_state_key loc ["x"] 0 = latLngSegment loc ++ "|x|0" := by
  simp only [create_state_key, jsRound_0]; rfl

@[simp] theorem key_z_0 (loc : Location) :
    create_state_key loc ["z"] 0 = latLngSegment loc ++ "|z|0" := by
  simp only [create_state_key, jsRound_0]; rfl

@[simp] theorem key_n_0 (loc : Location) :
    create_state_key loc ["n"] 0 = latLngSegment loc ++ "|n|0" := by
  simp only [create_state_key, jsRound_0]; rfl

@[simp] theorem erase_abab_a : (["a", "b", "a,b"] : List String).erase "a" = ["b", "a,b"] := rfl

@[simp] theorem erase_abab_b : (["a", "b", "a,b"] : List String).erase "b" = ["a", "a,b"] := by decide

@[simp] theorem erase_abab_ab : (["a", "b", "a,b"] : List String).erase "a,b" = ["a", "b"] := by decide

@[simp] theorem erase_bab_b : (["b", "a,b"] : List String).erase "b" = ["a,b"] := rfl

@[simp] theorem erase_bab_ab : (["b", "a,b"] : List String).erase "a,b" = ["b"] := by decide

@[simp] theorem erase_aab_a : (["a", "a,b"] : List String).erase "a" = ["a,b"] := rfl

@[simp] theorem erase_aab_ab : (["a", "a,b"] : List String).erase "a,b" = ["a"] := by decide

@[simp] theorem erase_ab_ab : (["a,b"] : List String).erase "a,b" = [] := rfl

@[simp] theorem erase_a_a : (["a"] : List String).erase "a" = [] := rfl

@[simp] theorem erase_b_b : (["b"] : List String).erase "b" = [] := rfl

@[simp] theorem erase_apb_ab : (["a", "b"] : List String).erase "a,b" = ["a", "b"] := by decide

@[simp] theorem erase_xy_x : (["x", "y"] : List String).erase "x" = ["y"] := rfl

@[simp] theorem erase_xy_y : (["x", "y"] : List String).erase "y" = ["x"] := by decide

@[simp] theorem erase_x_x : (["x"] : List String).erase "x" = [] := rfl

@[simp] theorem erase_y_y : (["y"] : List String).erase "y" = [] := rfl

@[simp] theorem erase_z_z : (["z"] : List String).erase "z" = [] := rfl

@[simp] theorem erase_n_n : (["n"] : List String).erase "n" = [] := rfl

@[simp] theorem mapget_col_a : jsMapGet collisionOrders "a" = some collisionOrderA := rfl

@[simp] theorem mapget_col_b : jsMapGet collisionOrders "b" = some collisionOrderB := rfl

@[simp] theorem mapget_col_ab : jsMapGet collisionOrders "a,b" = some collisionOrderAB := rfl

@[simp] theorem mapget_tie_x : jsMapGet tieOrders "x" = some tieOrderX := rfl

@[simp] theorem mapget_tie_y : jsMapGet tieOrders "y" = some tieOrderY := rfl

@[simp] theorem mapget_z : jsMapGet [zeroCostOrder] "z" = some zeroCostOrder := rfl

@[simp] theorem mapget_n : jsMapGet [plainOrder] "n" = some plainOrder := rfl

@[simp] theorem collisionOrderA_id : collisionOrderA.order_id = "a" := rfl

@[simp] theorem collisionOrderB_id : collisionOrderB.order_id = "b" := rfl

@[simp] theorem collisionOrderAB_id : collisionOrderAB.order_id = "a,b" := rfl

@[simp] theorem collisionOrderA_time : collisionOrderA.order_time = 3000 := rfl

@[simp] theorem collisionOrderB_time : collisionOrderB.order_time = 3000 := rfl

@[simp] theorem collisionOrderAB_time : collisionOrderAB.order_time = 3000 := rfl

@[simp] theorem tieOrderX_id : tieOrderX.order_id = "x" := rfl

@[simp] theorem tieOrderY_id : tieOrderY.order_id = "y" := rfl

@[simp] theorem tieOrderX_time : tieOrderX.order_time = 0 := rfl

@[simp] theorem tieOrderY_time : tieOrderY.order_time = 0 := rfl

@[simp] theorem zeroCostOrder_id : zeroCostOrder.order_id = "z" := rfl

@[simp] theorem zeroCostOrder_time : zeroCostOrder.order_time = 0 := rfl

@[simp] theorem plainOrder_id : plainOrder.order_id = "n" := rfl

@[simp] theorem plainOrder_time : plainOrder.order_time = 0 := rfl

/-- Haversine distance from a position to itself is zero. -/
theorem compute_distance_self (loc : Location) : compute_distance loc loc = 0 := by
  simp [compute_distance, jsAtan2, Real.sqrt_one, Real.arctan_zero]

/-- Haversine distance is symmetric in its two arguments. -/
theorem compute_distance_symm (loc1 loc2 : Location) :
    compute_distance loc1 loc2 = compute_distance loc2 loc1 := by
  simp only [compute_distance]
  have key : Real.sin ((loc1.latitude - loc2.latitude) * Real.pi / 180 / 2) *
        Real.sin ((loc1.latitude - loc2.latitude) * Real.pi / 180 / 2) +
      Real.cos (loc2.latitude * Real.pi / 180) * Real.cos (loc1.latitude * Real.pi / 180) *
        (Real.sin ((loc1.longitude - loc2.longitude) * Real.pi / 180 / 2) *
         Real.sin ((loc1.longitude - loc2.longitude) * Real.pi / 180 / 2)) =
      Real.sin ((loc2.latitude - loc1.latitude) * Real.pi / 180 / 2) *
        Real.sin ((loc2.latitude - loc1.latitude) * Real.pi / 180 / 2) +
      Real.cos (loc1.latitude * Real.pi / 180) * Real.cos (loc2.latitude * Real.pi / 180) *
        (Real.sin ((loc2.longitude - loc1.longitude) * Real.pi / 180 / 2) *
         Real.sin ((loc2.longitude - loc1.longitude) * Real.pi / 180 / 2)) := by
    have e1 : (loc1.latitude - loc2.latitude) * Real.pi / 180 / 2 =
        -((loc2.latitude - loc1.latitude) * Real.pi / 180 / 2) := by ring
    have e2 : (loc1.longitude - loc2.longitude) * Real.pi / 180 / 2 =
        -((loc2.longitude - loc1.longitude) * Real.pi / 180 / 2) := by ring
    rw [e1, e2, Real.sin_neg, Real.sin_neg]; ring
  rw [key]

/-!
### Transition evaluations for the scenario runs

Every scenario request sits at the depot, so each transition has zero
distance and travel time; only the service-time clock advance and the
lateness penalty vary.  The coordinate literals are written in the
normal form produced by `norm_num` so that these rules fire during the
run evaluations.
-/

@[simp] theorem trans_col_a_3000 :
    searchTransition collisionParams { latitude := -(263 / 10000), longitude := 43737 / 400 } collisionOrderA 3000 =
    { orderLocation := { latitude := -(263 / 10000), longitude := 43737 / 400 }
      distance := 0, travelTime := 0, serviceTime := 1 / 5, arrivalTimeMs := 15000,
      delayPenalty := 1
      cost := { totalCost := 1, distanceCost := 0, timeCost := 0, delayCost := 1 } } := by
  simp [searchTransition, collisionParams, collisionOrderA, compute_travel_time,
    compute_delay_penalty, compute_step_cost, compute_distance_self,
    TransitionData.mk.injEq, StepCostBreakdown.mk.injEq, Location.mk.injEq, max_def]
  all_goals norm_num [compute_distance_self]

@[simp] theorem trans_col_b_3000 :
    searchTransition collisionParams { latitude := -(263 / 10000), longitude := 43737 / 400 } collisionOrderB 3000 =
    { orderLocation := { latitude := -(263 / 10000), longitude := 43737 / 400 }
      distance := 0, travelTime := 0, serviceTime := 1 / 5, arrivalTimeMs := 15000,
      delayPenalty := 1
      cost := { totalCost := 1, distanceCost := 0, timeCost := 0, delayCost := 1 } } := by
  simp [searchTransition, collisionParams, collisionOrderB, compute_travel_time,
    compute_delay_penalty, compute_step_cost, compute_distance_self,
    TransitionData.mk.injEq, StepCostBreakdown.mk.injEq, Location.mk.injEq, max_def]
  all_goals norm_num [compute_distance_self]

@[simp] theorem trans_col_ab_3000 :
    searchTransition collisionParams { latitude := -(263 / 10000), longitude := 43737 / 400 } collisionOrderAB 3000 =
    { orderLocation := { latitude := -(263 / 10000), longitude := 43737 / 400 }
      distance := 0, travelTime := 0, serviceTime := 1 / 5, arrivalTimeMs := 15000,
      delayPenalty := 2
      cost := { totalCost := 2, distanceCost := 0, timeCost := 0, delayCost := 2 } } := by
  simp [searchTransition, collisionParams, collisionOrderAB, compute_travel_time,
    compute_delay_penalty, compute_step_cost, compute_distance_self,
    TransitionData.mk.injEq, StepCostBreakdown.mk.injEq, Location.mk.injEq, max_def]
  all_goals norm_num [compute_distance_self]

@[simp] theorem trans_col_a_15000 :
    searchTransition collisionParams { latitude := -(263 / 10000), longitude := 43737 / 400 } collisionOrderA 15000 =
    { orderLocation := { latitude := -(263 / 10000), longitude := 43737 / 400 }
      distance := 0, travelTime := 0, serviceTime := 1 / 5, arrivalTimeMs := 27000,
      delayPenalty := 6 / 5
      cost := { totalCost := 6 / 5, distanceCost := 0, timeCost := 0, delayCost := 6 / 5 } } := by
  simp [searchTransition, collisionParams, collisionOrderA, compute_travel_time,
    compute_delay_penalty, compute_step_cost, compute_distance_self,
    TransitionData.mk.injEq, StepCostBreakdown.mk.injEq, Location.mk.injEq, max_def]
  all_goals norm_num [compute_distance_self]

@[simp] theorem trans_col_b_15000 :
    searchTransition collisionParams { latitude := -(263 / 10000), longitude := 43737 / 400 } collisionOrderB 15000 =
    { orderLocation := { latitude := -(263 / 10000), longitude := 43737 / 400 }
      distance := 0, travelTime := 0, serviceTime := 1 / 5, arrivalTimeMs := 27000,
      delayPenalty := 6 / 5
      cost := { totalCost := 6 / 5, distanceCost := 0, timeCost := 0, delayCost := 6 / 5 } } := by
  simp [searchTransition, collisionParams, collisionOrderB, compute_travel_time,
    compute_delay_penalty, compute_step_cost, compute_distance_self,
    TransitionData.mk.injEq, StepCostBreakdown.mk.injEq, Location.mk.injEq, max_def]
  all_goals norm_num [compute_distance_self]

@[simp] theorem trans_col_ab_15000 :
    searchTransition collisionParams { latitude := -(263 / 10000), longitude := 43737 / 400 } collisionOrderAB 15000 =
    { orderLocation := { latitude := -(263 / 10000), longitude := 43737 / 400 }
      distance := 0, travelTime := 0, serviceTime := 1 / 5, arrivalTimeMs := 27000,
      delayPenalty := 11 / 5
      cost := { totalCost := 11 / 5, distanceCost := 0, timeCost := 0, delayCost := 11 / 5 } } := by
  simp [searchTransition, collisionParams, collisionOrderAB, compute_travel_time,
    compute_delay_penalty, compute_step_cost, compute_distance_self,
    TransitionData.mk.injEq, StepCostBreakdown.mk.injEq, Location.mk.injEq, max_def]
  all_goals norm_num [compute_distance_self]

@[simp] theorem trans_col_a_27000 :
    searchTransition collisionParams { latitude := -(263 / 10000), longitude := 43737 / 400 } collisionOrderA 27000 =
    { orderLocation := { latitude := -(263 / 10000), longitude := 43737 / 400 }
      distance := 0, travelTime := 0, serviceTime := 1 / 5, arrivalTimeMs := 39000,
      delayPenalty := 7 / 5
      cost := { totalCost := 7 / 5, distanceCost := 0, timeCost := 0, delayCost := 7 / 5 } } := by
  simp [searchTransition, collisionParams, collisionOrderA, compute_travel_time,
    compute_delay_penalty, compute_step_cost, compute_distance_self,
    TransitionData.mk.injEq, StepCostBreakdown.mk.injEq, Location.mk.injEq, max_def]
  all_goals norm_num [compute_distance_self]

@[simp] theorem trans_col_b_27000 :
    searchTransition collisionParams { latitude := -(263 / 10000), longitude := 43737 / 400 } collisionOrderB 27000 =
    { orderLocation := { latitude := -(263 / 10000), longitude := 43737 / 400 }
      distance := 0, travelTime := 0, serviceTime := 1 / 5, arrivalTimeMs := 39000,
      delayPenalty := 7 / 5
      cost := { totalCost := 7 / 5, distanceCost := 0, timeCost := 0, delayCost := 7 / 5 } } := by
  simp [searchTransition, collisionParams, collisionOrderB, compute_travel_time,
    compute_delay_penalty, compute_step_cost, compute_distance_self,
    TransitionData.mk.injEq, StepCostBreakdown.mk.injEq, Location.mk.injEq, max_def]
  all_goals norm_num [compute_distance_self]

@[simp] theorem trans_col_ab_27000 :
    searchTransition collisionParams { latitude := -(263 / 10000), longitude := 43737 / 400 } collisionOrderAB 27000 =
    { orderLocation := { latitude := -(263 / 10000), longitude := 43737 / 400 }
      distance := 0, travelTime := 0, serviceTime := 1 / 5, arrivalTimeMs := 39000,
      delayPenalty := 12 / 5
      cost := { totalCost := 12 / 5, distanceCost := 0, timeCost := 0, delayCost := 12 / 5 } } := by
  simp [searchTransition, collisionParams, collisionOrderAB, compute_travel_time,
    compute_delay_penalty, compute_step_cost, compute_distance_self,
    TransitionData.mk.injEq, StepCostBreakdown.mk.injEq, Location.mk.injEq, max_def]
  all_goals norm_num [compute_distance_self]

@[simp] theorem trans_tie_x_0 :
    searchTransition tieParams { latitude := -(263 / 10000), longitude := 43737 / 400 } tieOrderX 0 =
    { orderLocation := { latitude := -(263 / 10000), longitude := 43737 / 400 }
      distance := 0, travelTime := 0, serviceTime := 0, arrivalTimeMs := 0,
      delayPenalty := 0
      cost := { totalCost := 0, distanceCost := 0, timeCost := 0, delayCost := 0 } } := by
  simp [searchTransition, tieParams, tieOrderX, compute_travel_time,
    compute_delay_penalty, compute_step_cost, compute_distance_self,
    TransitionData.mk.injEq, StepCostBreakdown.mk.injEq, Location.mk.injEq, max_def]
  all_goals norm_num [compute_distance_self]

@[simp] theorem trans_tie_y_0 :
    searchTransition tieParams { latitude := -(263 / 10000), longitude := 43737 / 400 } tieOrderY 0 =
    { orderLocation := { latitude := -(263 / 10000), longitude := 43737 / 400 }
      distance := 0, travelTime := 0, serviceTime := 0, arrivalTimeMs := 0,
      delayPenalty := 0
      cost := { totalCost := 0, distanceCost := 0, timeCost := 0, delayCost := 0 } } := by
  simp [searchTransition, tieParams, tieOrderY, compute_travel_time,
    compute_delay_penalty, compute_step_cost, compute_distance_self,
    TransitionData.mk.injEq, StepCostBreakdown.mk.injEq, Location.mk.injEq, max_def]
  all_goals norm_num [compute_distance_self]

@[simp] theorem trans_zero_z_0 :
    searchTransition zeroWeightParams { latitude := -(263 / 10000), longitude := 43737 / 400 } zeroCostOrder 0 =
    { orderLocation := { latitude := -(263 / 10000), longitude := 43737 / 400 }
      distance := 0, travelTime := 0, serviceTime := 5, arrivalTimeMs := 300000,
      delayPenalty := 5
      cost := { totalCost := 0, distanceCost := 0, timeCost := 0, delayCost := 0 } } := by
  simp [searchTransition, zeroWeightParams, zeroCostOrder, compute_travel_time,
    compute_delay_penalty, compute_step_cost, compute_distance_self,
    TransitionData.mk.injEq, StepCostBreakdown.mk.injEq, Location.mk.injEq, max_def]
  all_goals norm_num [compute_distance_self]

@[simp] theorem trans_negw_n_0 :
    searchTransition negWeightParams { latitude := -(263 / 10000), longitude := 43737 / 400 } plainOrder 0 =
    { orderLocation := { latitude := -(263 / 10000), longitude := 43737 / 400 }
      distance := 0, travelTime := 0, serviceTime := 0, arrivalTimeMs := 0,
      delayPenalty := 1
      cost := { totalCost := -1, distanceCost := 0, timeCost := 0, delayCost := -1 } } := by
  simp [searchTransition, negWeightParams, plainOrder, compute_travel_time,
    compute_delay_penalty, compute_step_cost, compute_distance_self,
    TransitionData.mk.injEq, StepCostBreakdown.mk.injEq, Location.mk.injEq, max_def]
  all_goals norm_num [compute_distance_self]

@[simp] theorem trans_negs_n_0 :
    searchTransition negSpeedParams { latitude := -(263 / 10000), longitude := 43737 / 400 } plainOrder 0 =
    { orderLocation := { latitude := -(263 / 10000), longitude := 43737 / 400 }
      distance := 0, travelTime := 0, serviceTime := 0, arrivalTimeMs := 0,
      delayPenalty := 1
      cost := { totalCost := 1, distanceCost := 0, timeCost := 0, delayCost := 1 } } := by
  simp [searchTransition, negSpeedParams, plainOrder, compute_travel_time,
    compute_delay_penalty, compute_step_cost, compute_distance_self,
    TransitionData.mk.injEq, StepCostBreakdown.mk.injEq, Location.mk.injEq, max_def]
  all_goals norm_num [compute_distance_self]


/-- C9 (counterexample): `compute_distance` returns zero on two distinct
coordinate pairs — both at the north pole, longitudes 0 and 1 — refuting
the claim that the distance is zero only for identical positions. -/
theorem compute_distance_zero_at_distinct_poles :
    compute_distance { latitude := 90, longitude := 0 } { latitude := 90, longitude := 1 } = 0 ∧
    ({ latitude := 90, longitude := 0 } : Location) ≠ { latitude := 90, longitude := 1 } := by
  constructor
  · simp only [compute_distance]
    have h90 : (90 : ℝ) * Real.pi / 180 = Real.pi / 2 := by ring
    simp [h90, Real.cos_pi_div_two, jsAtan2, Real.sqrt_one, Real.arctan_zero]
  · intro h
    have := congrArg Location.longitude h
    norm_num at this

/-- C9 (amended): `compute_distance` is symmetric for all positions, and
is zero whenever the two positions are equal; the converse fails
(see the pole counterexample). -/
theorem compute_distance_symmetric_and_zero_of_eq :
    (∀ a b : Location, compute_distance a b = compute_distance b a) ∧
    (∀ a : Location, compute_distance a a = 0) :=
  ⟨compute_distance_symm, compute_distance_self⟩

/-- C10: the search-side and extraction-side transition computations of
`dp-solver.ts` are the identical formula: the arrival time equals the
current clock plus travel time plus the per-stop service time, the
service time defaulting to 5 minutes when `params.serviceTime` is
undefined, and the lateness penalty of the step is computed against this
service-inclusive arrival time. -/
theorem search_and_extract_transitions_agree (params : Parameters)
    (loc : Location) (order : Order) (t : ℝ) :
    searchTransition params loc order t = extractTransition params loc order t ∧
    (searchTransition params loc order t).arrivalTimeMs =
      t + ((searchTransition params loc order t).travelTime +
        params.serviceTime.getD 5) * 60000 ∧
    (searchTransition params loc order t).delayPenalty =
      compute_delay_penalty (searchTransition params loc order t).arrivalTimeMs
        order.due_time ∧
    (searchTransition
        { averageSpeed := params.averageSpeed, alpha := params.alpha,
          beta := params.beta, gamma := params.gamma, serviceTime := none }
        loc order t).arrivalTimeMs =
      t + ((searchTransition params loc order t).travelTime + 5) * 60000 :=
  ⟨rfl, rfl, rfl, rfl⟩

/-- C7: for an empty request list `dp_solve` returns an empty schedule
with all metrics zero — empty sequence, zero total distance, travel
time, delay penalty and cost, zero states evaluated, zero memo hits and
an empty memo — and the extraction loop terminates immediately. -/
theorem dp_solve_empty_request_list (fuel : ℕ) (params : Parameters) :
    (dp_solve fuel [] params).1.sequence = [] ∧
    (dp_solve fuel [] params).1.totalDistance = 0 ∧
    (dp_solve fuel [] params).1.totalTravelTime = 0 ∧
    (dp_solve fuel [] params).1.totalDelayPenalty = 0 ∧
    (dp_solve fuel [] params).1.totalCost = 0 ∧
    (dp_solve fuel [] params).1.dpStatistics.totalStatesEvaluated = 0 ∧
    (dp_solve fuel [] params).1.dpStatistics.totalMemoHits = 0 ∧
    (dp_solve fuel [] params).1.dpStatistics.uniqueStatesStored = 0 ∧
    (dp_solve fuel [] params).2 = true := by
  simp [dp_solve, dp_recursive, jsSetDedup, startingTimeOf]
  rw [extractLoop.eq_def]
  simp

@[simp] theorem collisionOrders_map_ids :
    collisionOrders.map (fun o => o.order_id) = ["a", "b", "a,b"] := rfl

@[simp] theorem collisionOrders_map_times :
    collisionOrders.map (fun o => o.order_time) = [3000, 3000, 3000] := rfl

@[simp] theorem collisionOrders_length : collisionOrders.length = 3 := rfl

/-!
### String disequalities used by the run evaluations

Stated as rewrite rules so that both plain `simp` and the `norm_num`
calls (whose inner simp does not evaluate string literals) can discharge
the memo-lookup and set-dedup conditions.
-/

@[simp] theorem ne_PaCaCbCbP0_PaCbCbP0 : ("|a,a,b,b|0" : String) ≠ "|a,b,b|0" := by decide

@[simp] theorem ne_PaCaCbCbP0_PaCbP0 : ("|a,a,b,b|0" : String) ≠ "|a,b|0" := by decide

@[simp] theorem ne_PaCaCbCbP0_PbP0 : ("|a,a,b,b|0" : String) ≠ "|b|0" := by decide

@[simp] theorem ne_PaCaCbCbP0_PaCaCbP0 : ("|a,a,b,b|0" : String) ≠ "|a,a,b|0" := by decide

@[simp] theorem ne_PaCaCbCbP0_PaP0 : ("|a,a,b,b|0" : String) ≠ "|a|0" := by decide

@[simp] theorem ne_PaCaCbCbP0_PaCbP1 : ("|a,a,b,b|0" : String) ≠ "|a,b|1" := by decide

@[simp] theorem ne_PaCbCbP0_PaCaCbCbP0 : ("|a,b,b|0" : String) ≠ "|a,a,b,b|0" := by decide

@[simp] theorem ne_PaCbCbP0_PaCbP0 : ("|a,b,b|0" : String) ≠ "|a,b|0" := by decide

@[simp] theorem ne_PaCbCbP0_PbP0 : ("|a,b,b|0" : String) ≠ "|b|0" := by decide

@[simp] theorem ne_PaCbCbP0_PaCaCbP0 : ("|a,b,b|0" : String) ≠ "|a,a,b|0" := by decide

@[simp] theorem ne_PaCbCbP0_PaP0 : ("|a,b,b|0" : String) ≠ "|a|0" := by decide

@[simp] theorem ne_PaCbCbP0_PaCbP1 : ("|a,b,b|0" : String) ≠ "|a,b|1" := by decide

@[simp] theorem ne_PaCbP0_PaCaCbCbP0 : ("|a,b|0" : String) ≠ "|a,a,b,b|0" := by decide

@[simp] theorem ne_PaCbP0_PaCbCbP0 : ("|a,b|0" : String) ≠ "|a,b,b|0" := by decide

@[simp] theorem ne_PaCbP0_PbP0 : ("|a,b|0" : String) ≠ "|b|0" := by decide

@[simp] theorem ne_PaCbP0_PaCaCbP0 : ("|a,b|0" : String) ≠ "|a,a,b|0" := by decide

@[simp] theorem ne_PaCbP0_PaP0 : ("|a,b|0" : String) ≠ "|a|0" := by decide

@[simp] theorem ne_PaCbP0_PaCbP1 : ("|a,b|0" : String) ≠ "|a,b|1" := by decide

@[simp] theorem ne_PbP0_PaCaCbCbP0 : ("|b|0" : String) ≠ "|a,a,b,b|0" := by decide

@[simp] theorem ne_PbP0_PaCbCbP0 : ("|b|0" : String) ≠ "|a,b,b|0" := by decide

@[simp] theorem ne_PbP0_PaCbP0 : ("|b|0" : String) ≠ "|a,b|0" := by decide

@[simp] theorem ne_PbP0_PaCaCbP0 : ("|b|0" : String) ≠ "|a,a,b|0" := by decide

@[simp] theorem ne_PbP0_PaP0 : ("|b|0" : String) ≠ "|a|0" := by decide

@[simp] theorem ne_PbP0_PaCbP1 : ("|b|0" : String) ≠ "|a,b|1" := by decide

@[simp] theorem ne_PaCaCbP0_PaCaCbCbP0 : ("|a,a,b|0" : String) ≠ "|a,a,b,b|0" := by decide

@[simp] theorem ne_PaCaCbP0_PaCbCbP0 : ("|a,a,b|0" : String) ≠ "|a,b,b|0" := by decide

@[simp] theorem ne_PaCaCbP0_PaCbP0 : ("|a,a,b|0" : String) ≠ "|a,b|0" := by decide

@[simp] theorem ne_PaCaCbP0_PbP0 : ("|a,a,b|0" : String) ≠ "|b|0" := by decide

@[simp] theorem ne_PaCaCbP0_PaP0 : ("|a,a,b|0" : String) ≠ "|a|0" := by decide

@[simp] theorem ne_PaCaCbP0_PaCbP1 : ("|a,a,b|0" : String) ≠ "|a,b|1" := by decide

@[simp] theorem ne_PaP0_PaCaCbCbP0 : ("|a|0" : String) ≠ "|a,a,b,b|0" := by decide

@[simp] theorem ne_PaP0_PaCbCbP0 : ("|a|0" : String) ≠ "|a,b,b|0" := by decide

@[simp] theorem ne_PaP0_PaCbP0 : ("|a|0" : String) ≠ "|a,b|0" := by decide

@[simp] theorem ne_PaP0_PbP0 : ("|a|0" : String) ≠ "|b|0" := by decide

@[simp] theorem ne_PaP0_PaCaCbP0 : ("|a|0" : String) ≠ "|a,a,b|0" := by decide

@[simp] theorem ne_PaP0_PaCbP1 : ("|a|0" : String) ≠ "|a,b|1" := by decide

@[simp] theorem ne_PaCbP1_PaCaCbCbP0 : ("|a,b|1" : String) ≠ "|a,a,b,b|0" := by decide

@[simp] theorem ne_PaCbP1_PaCbCbP0 : ("|a,b|1" : String) ≠ "|a,b,b|0" := by decide

@[simp] theorem ne_PaCbP1_PaCbP0 : ("|a,b|1" : String) ≠ "|a,b|0" := by decide

@[simp] theorem ne_PaCbP1_PbP0 : ("|a,b|1" : String) ≠ "|b|0" := by decide

@[simp] theorem ne_PaCbP1_PaCaCbP0 : ("|a,b|1" : String) ≠ "|a,a,b|0" := by decide

@[simp] theorem ne_PaCbP1_PaP0 : ("|a,b|1" : String) ≠ "|a|0" := by decide

@[simp] theorem ne_b_a : ("b" : String) ≠ "a" := by decide

@[simp] theorem ne_a_b : ("a" : String) ≠ "b" := by decide

@[simp] theorem ne_aCb_a : ("a,b" : String) ≠ "a" := by decide

@[simp] theorem ne_a_aCb : ("a" : String) ≠ "a,b" := by decide

@[simp] theorem ne_aCb_b : ("a,b" : String) ≠ "b" := by decide

@[simp] theorem ne_b_aCb : ("b" : String) ≠ "a,b" := by decide

@[simp] theorem ne_y_x : ("y" : String) ≠ "x" := by decide

@[simp] theorem ne_x_y : ("x" : String) ≠ "y" := by decide

@[simp] theorem ne_PxCyP0_PyP0 : ("|x,y|0" : String) ≠ "|y|0" := by decide

@[simp] theorem ne_PyP0_PxCyP0 : ("|y|0" : String) ≠ "|x,y|0" := by decide

@[simp] theorem ne_PxCyP0_PxP0 : ("|x,y|0" : String) ≠ "|x|0" := by decide

@[simp] theorem ne_PxP0_PxCyP0 : ("|x|0" : String) ≠ "|x,y|0" := by decide

@[simp] theorem ne_PyP0_PxP0 : ("|y|0" : String) ≠ "|x|0" := by decide

@[simp] theorem ne_PxP0_PyP0 : ("|x|0" : String) ≠ "|y|0" := by decide

/-- Evaluation of the zero-weight single-order run: the schedule has one
step, the total weighted cost is zero, and the narrative percentage
attributions are the non-finite marker (unguarded `0/0`), not zero. -/
theorem zero_cost_run_eval :
    (dp_solve 2 [zeroCostOrder] zeroWeightParams).1.totalCost = 0 ∧
    (dp_solve 2 [zeroCostOrder] zeroWeightParams).1.explanation.tradeoffAnalysis.distancePctOfTotal = none ∧
    (dp_solve 2 [zeroCostOrder] zeroWeightParams).1.explanation.tradeoffAnalysis.timePctOfTotal = none ∧
    (dp_solve 2 [zeroCostOrder] zeroWeightParams).1.explanation.tradeoffAnalysis.delayPctOfTotal = none ∧
    (dp_solve 2 [zeroCostOrder] zeroWeightParams).2 = true := by
  norm_num [dp_solve, dp_recursive, bellmanLoop, extractLoop.eq_def,
    extractTransition_eq_searchTransition, startingTimeOf, jsSetDedup,
    memoFind, evalBookkeep, tracePush, jsDivPct,
    WithTop.coe_lt_top, ← WithTop.coe_add]

/-- Evaluation of the negative-lateness-weight run: `dp_solve` accepts
the parameters and returns a normally completed result with a negative
total cost. -/
theorem neg_weight_run_eval :
    (dp_solve 2 [plainOrder] negWeightParams).1.totalCost = -1 ∧
    (dp_solve 2 [plainOrder] negWeightParams).1.sequence.length = 1 ∧
    (dp_solve 2 [plainOrder] negWeightParams).2 = true := by
  norm_num [dp_solve, dp_recursive, bellmanLoop, extractLoop.eq_def,
    extractTransition_eq_searchTransition, startingTimeOf, jsSetDedup,
    memoFind, evalBookkeep, tracePush, jsDivPct,
    WithTop.coe_lt_top, WithTop.coe_lt_coe, WithTop.lt_top_iff_ne_top,
    WithTop.coe_ne_top, ← WithTop.coe_add]

/-- Evaluation of the negative-speed run: `dp_solve` accepts the
parameters and returns a normally completed one-step result. -/
theorem neg_speed_run_eval :
    (dp_solve 2 [plainOrder] negSpeedParams).1.sequence.length = 1 ∧
    (dp_solve 2 [plainOrder] negSpeedParams).1.totalCost = 1 ∧
    (dp_solve 2 [plainOrder] negSpeedParams).2 = true := by
  norm_num [dp_solve, dp_recursive, bellmanLoop, extractLoop.eq_def,
    extractTransition_eq_searchTransition, startingTimeOf, jsSetDedup,
    memoFind, evalBookkeep, tracePush, jsDivPct,
    WithTop.coe_lt_top, WithTop.coe_lt_coe, WithTop.lt_top_iff_ne_top,
    WithTop.coe_ne_top, ← WithTop.coe_add]

/-- Mixed-numeral `WithTop` sum evaluation used by the top-level Bellman
comparison of the collision run. -/
theorem wtop_two_add :
    (2 : WithTop ℝ) + ((12 / 5 : ℝ) : WithTop ℝ) = ((22 / 5 : ℝ) : WithTop ℝ) := by
  rw [show (2 : WithTop ℝ) = ((2 : ℝ) : WithTop ℝ) by norm_cast, ← WithTop.coe_add]
  norm_num

/-- Companion evaluation for the incumbent total of the collision run. -/
theorem wtop_one_add :
    (1 : WithTop ℝ) + ((18 / 5 : ℝ) : WithTop ℝ) = ((23 / 5 : ℝ) : WithTop ℝ) := by
  rw [show (1 : WithTop ℝ) = ((1 : ℝ) : WithTop ℝ) by norm_cast, ← WithTop.coe_add]
  norm_num

set_option maxHeartbeats 2000000 in
/-- Search-phase call evaluation (eval) on state `|a,b|0`. -/
theorem col_dp_1 :
    dp_recursive collisionOrders collisionParams 1
      { latitude := -(263 / 10000), longitude := 43737 / 400 } ["a,b"] 27000 2
      { memo := [],
        statesEvaluated := 2, memoHits := 0, maxDepth := 1,
        recursionTrace := [{ depth := 0, stateDescription := { latitude := -(263 / 10000), longitude := 43737 / 400, remainingCount := 3, timeMs := 3000 }, action := RecAction.evaluate, selectedOrder := none, cost := none },
          { depth := 1, stateDescription := { latitude := -(263 / 10000), longitude := 43737 / 400, remainingCount := 2, timeMs := 15000 }, action := RecAction.evaluate, selectedOrder := none, cost := none }] } =
    ({ cost := (((12 / 5) : ℝ) : WithTop ℝ), nextOrderId := some "a,b" },
     { memo := [(latLngSegment { latitude := -(263 / 10000), longitude := 43737 / 400 } ++ "|a,b|0", { cost := (((12 / 5) : ℝ) : WithTop ℝ), nextOrderId := some "a,b" })],
        statesEvaluated := 3, memoHits := 0, maxDepth := 3,
        recursionTrace := [{ depth := 0, stateDescription := { latitude := -(263 / 10000), longitude := 43737 / 400, remainingCount := 3, timeMs := 3000 }, action := RecAction.evaluate, selectedOrder := none, cost := none },
          { depth := 1, stateDescription := { latitude := -(263 / 10000), longitude := 43737 / 400, remainingCount := 2, timeMs := 15000 }, action := RecAction.evaluate, selectedOrder := none, cost := none },
          { depth := 2, stateDescription := { latitude := -(263 / 10000), longitude := 43737 / 400, remainingCount := 1, timeMs := 27000 }, action := RecAction.evaluate, selectedOrder := none, cost := none },
          { depth := 2, stateDescription := { latitude := -(263 / 10000), longitude := 43737 / 400, remainingCount := 1, timeMs := 27000 }, action := RecAction.memoStore, selectedOrder := some "a,b", cost := some (((12 / 5) : ℝ) : WithTop ℝ) }] }) := by
  norm_num [dp_recursive, bellmanLoop, memoFind, evalBookkeep, tracePush,
    describe_state, max_def, List.cons_ne_nil, wtop_two_add, wtop_one_add,
    SolveState.mk.injEq,
    DPResult.mk.injEq, Prod.ext_iff, WithTop.coe_lt_top, WithTop.coe_lt_coe,
    WithTop.lt_top_iff_ne_top, WithTop.coe_ne_top, ← WithTop.coe_add]

set_option maxHeartbeats 2000000 in
/-- Search-phase call evaluation (eval) on state `|b|0`. -/
theorem col_dp_2 :
    dp_recursive collisionOrders collisionParams 1
      { latitude := -(263 / 10000), longitude := 43737 / 400 } ["b"] 27000 2
      { memo := [(latLngSegment { latitude := -(263 / 10000), longitude := 43737 / 400 } ++ "|a,b|0", { cost := (((12 / 5) : ℝ) : WithTop ℝ), nextOrderId := some "a,b" })],
        statesEvaluated := 3, memoHits := 0, maxDepth := 3,
        recursionTrace := [{ depth := 0, stateDescription := { latitude := -(263 / 10000), longitude := 43737 / 400, remainingCount := 3, timeMs := 3000 }, action := RecAction.evaluate, selectedOrder := none, cost := none },
          { depth := 1, stateDescription := { latitude := -(263 / 10000), longitude := 43737 / 400, remainingCount := 2, timeMs := 15000 }, action := RecAction.evaluate, selectedOrder := none, cost := none },
          { depth := 2, stateDescription := { latitude := -(263 / 10000), longitude := 43737 / 400, remainingCount := 1, timeMs := 27000 }, action := RecAction.evaluate, selectedOrder := none, cost := none },
          { depth := 2, stateDescription := { latitude := -(263 / 10000), longitude := 43737 / 400, remainingCount := 1, timeMs := 27000 }, action := RecAction.memoStore, selectedOrder := some "a,b", cost := some (((12 / 5) : ℝ) : WithTop ℝ) }] } =
    ({ cost := (((7 / 5) : ℝ) : WithTop ℝ), nextOrderId := some "b" },
     { memo := [(latLngSegment { latitude := -(263 / 10000), longitude := 43737 / 400 } ++ "|a,b|0", { cost := (((12 / 5) : ℝ) : WithTop ℝ), nextOrderId := some "a,b" }),
          (latLngSegment { latitude := -(263 / 10000), longitude := 43737 / 400 } ++ "|b|0", { cost := (((7 / 5) : ℝ) : WithTop ℝ), nextOrderId := some "b" })],
        statesEvaluated := 4, memoHits := 0, maxDepth := 3,
        recursionTrace := [{ depth := 0, stateDescription := { latitude := -(263 / 10000), longitude := 43737 / 400, remainingCount := 3, timeMs := 3000 }, action := RecAction.evaluate, selectedOrder := none, cost := none },
          { depth := 1, stateDescription := { latitude := -(263 / 10000), longitude := 43737 / 400, remainingCount := 2, timeMs := 15000 }, action := RecAction.evaluate, selectedOrder := none, cost := none },
          { depth := 2, stateDescription := { latitude := -(263 / 10000), longitude := 43737 / 400, remainingCount := 1, timeMs := 27000 }, action := RecAction.evaluate, selectedOrder := none, cost := none },
          { depth := 2, stateDescription := { latitude := -(263 / 10000), longitude := 43737 / 400, remainingCount := 1, timeMs := 27000 }, action := RecAction.memoStore, selectedOrder := some "a,b", cost := some (((12 / 5) : ℝ) : WithTop ℝ) },
          { depth := 2, stateDescription := { latitude := -(263 / 10000), longitude := 43737 / 400, remainingCount := 1, timeMs := 27000 }, action := RecAction.evaluate, selectedOrder := none, cost := none },
          { depth := 2, stateDescription := { latitude := -(263 / 10000), longitude := 43737 / 400, remainingCount := 1, timeMs := 27000 }, action := RecAction.memoStore, selectedOrder := some "b", cost := some (((7 / 5) : ℝ) : WithTop ℝ) }] }) := by
  norm_num [dp_recursive, bellmanLoop, memoFind, evalBookkeep, tracePush,
    describe_state, max_def, List.cons_ne_nil, wtop_two_add, wtop_one_add,
    SolveState.mk.injEq,
    DPResult.mk.injEq, Prod.ext_iff, WithTop.coe_lt_top, WithTop.coe_lt_coe,
    WithTop.lt_top_iff_ne_top, WithTop.coe_ne_top, ← WithTop.coe_add, col_dp_1]

set_option maxHeartbeats 2000000 in
/-- Search-phase call evaluation (eval) on state `|a,b,b|0`. -/
theorem col_dp_3 :
    dp_recursive collisionOrders collisionParams 2
      { latitude := -(263 / 10000), longitude := 43737 / 400 } ["b", "a,b"] 15000 1
      { memo := [],
        statesEvaluated := 1, memoHits := 0, maxDepth := 0,
        recursionTrace := [{ depth := 0, stateDescription := { latitude := -(263 / 10000), longitude := 43737 / 400, remainingCount := 3, timeMs := 3000 }, action := RecAction.evaluate, selectedOrder := none, cost := none }] } =
    ({ cost := (((18 / 5) : ℝ) : WithTop ℝ), nextOrderId := some "b" },
     { memo := [(latLngSegment { latitude := -(263 / 10000), longitude := 43737 / 400 } ++ "|a,b|0", { cost := (((12 / 5) : ℝ) : WithTop ℝ), nextOrderId := some "a,b" }),
          (latLngSegment { latitude := -(263 / 10000), longitude := 43737 / 400 } ++ "|b|0", { cost := (((7 / 5) : ℝ) : WithTop ℝ), nextOrderId := some "b" }),
          (latLngSegment { latitude := -(263 / 10000), longitude := 43737 / 400 } ++ "|a,b,b|0", { cost := (((18 / 5) : ℝ) : WithTop ℝ), nextOrderId := some "b" })],
        statesEvaluated := 4, memoHits := 0, maxDepth := 3,
        recursionTrace := [{ depth := 0, stateDescription := { latitude := -(263 / 10000), longitude := 43737 / 400, remainingCount := 3, timeMs := 3000 }, action := RecAction.evaluate, selectedOrder := none, cost := none },
          { depth := 1, stateDescription := { latitude := -(263 / 10000), longitude := 43737 / 400, remainingCount := 2, timeMs := 15000 }, action := RecAction.evaluate, selectedOrder := none, cost := none },
          { depth := 2, stateDescription := { latitude := -(263 / 10000), longitude := 43737 / 400, remainingCount := 1, timeMs := 27000 }, action := RecAction.evaluate, selectedOrder := none, cost := none },
          { depth := 2, stateDescription := { latitude := -(263 / 10000), longitude := 43737 / 400, remainingCount := 1, timeMs := 27000 }, action := RecAction.memoStore, selectedOrder := some "a,b", cost := some (((12 / 5) : ℝ) : WithTop ℝ) },
          { depth := 2, stateDescription := { latitude := -(263 / 10000), longitude := 43737 / 400, remainingCount := 1, timeMs := 27000 }, action := RecAction.evaluate, selectedOrder := none, cost := none },
          { depth := 2, stateDescription := { latitude := -(263 / 10000), longitude := 43737 / 400, remainingCount := 1, timeMs := 27000 }, action := RecAction.memoStore, selectedOrder := some "b", cost := some (((7 / 5) : ℝ) : WithTop ℝ) },
          { depth := 1, stateDescription := { latitude := -(263 / 10000), longitude := 43737 / 400, remainingCount := 2, timeMs := 15000 }, action := RecAction.memoStore, selectedOrder := some "b", cost := some (((18 / 5) : ℝ) : WithTop ℝ) }] }) := by
  norm_num [dp_recursive, bellmanLoop, memoFind, evalBookkeep, tracePush,
    describe_state, max_def, List.cons_ne_nil, wtop_two_add, wtop_one_add,
    SolveState.mk.injEq,
    DPResult.mk.injEq, Prod.ext_iff, WithTop.coe_lt_top, WithTop.coe_lt_coe,
    WithTop.lt_top_iff_ne_top, WithTop.coe_ne_top, ← WithTop.coe_add, col_dp_1, col_dp_2]

set_option maxHeartbeats 2000000 in
/-- Search-phase call evaluation (hit) on state `|a,b|0`. -/
theorem col_dp_4 :
    dp_recursive collisionOrders collisionParams 1
      { latitude := -(263 / 10000), longitude := 43737 / 400 } ["a,b"] 27000 2
      { memo := [(latLngSegment { latitude := -(263 / 10000), longitude := 43737 / 400 } ++ "|a,b|0", { cost := (((12 / 5) : ℝ) : WithTop ℝ), nextOrderId := some "a,b" }),
          (latLngSegment { latitude := -(263 / 10000), longitude := 43737 / 400 } ++ "|b|0", { cost := (((7 / 5) : ℝ) : WithTop ℝ), nextOrderId := some "b" }),
          (latLngSegment { latitude := -(263 / 10000), longitude := 43737 / 400 } ++ "|a,b,b|0", { cost := (((18 / 5) : ℝ) : WithTop ℝ), nextOrderId := some "b" })],
        statesEvaluated := 5, memoHits := 0, maxDepth := 3,
        recursionTrace := [{ depth := 0, stateDescription := { latitude := -(263 / 10000), longitude := 43737 / 400, remainingCount := 3, timeMs := 3000 }, action := RecAction.evaluate, selectedOrder := none, cost := none },
          { depth := 1, stateDescription := { latitude := -(263 / 10000), longitude := 43737 / 400, remainingCount := 2, timeMs := 15000 }, action := RecAction.evaluate, selectedOrder := none, cost := none },
          { depth := 2, stateDescription := { latitude := -(263 / 10000), longitude := 43737 / 400, remainingCount := 1, timeMs := 27000 }, action := RecAction.evaluate, selectedOrder := none, cost := none },
          { depth := 2, stateDescription := { latitude := -(263 / 10000), longitude := 43737 / 400, remainingCount := 1, timeMs := 27000 }, action := RecAction.memoStore, selectedOrder := some "a,b", cost := some (((12 / 5) : ℝ) : WithTop ℝ) },
          { depth := 2, stateDescription := { latitude := -(263 / 10000), longitude := 43737 / 400, remainingCount := 1, timeMs := 27000 }, action := RecAction.evaluate, selectedOrder := none, cost := none },
          { depth := 2, stateDescription := { latitude := -(263 / 10000), longitude := 43737 / 400, remainingCount := 1, timeMs := 27000 }, action := RecAction.memoStore, selectedOrder := some "b", cost := some (((7 / 5) : ℝ) : WithTop ℝ) },
          { depth := 1, stateDescription := { latitude := -(263 / 10000), longitude := 43737 / 400, remainingCount := 2, timeMs := 15000 }, action := RecAction.memoStore, selectedOrder := some "b", cost := some (((18 / 5) : ℝ) : WithTop ℝ) },
          { depth := 1, stateDescription := { latitude := -(263 / 10000), longitude := 43737 / 400, remainingCount := 2, timeMs := 15000 }, action := RecAction.evaluate, selectedOrder := none, cost := none }] } =
    ({ cost := (((12 / 5) : ℝ) : WithTop ℝ), nextOrderId := some "a,b" },
     { memo := [(latLngSegment { latitude := -(263 / 10000), longitude := 43737 / 400 } ++ "|a,b|0", { cost := (((12 / 5) : ℝ) : WithTop ℝ), nextOrderId := some "a,b" }),
          (latLngSegment { latitude := -(263 / 10000), longitude := 43737 / 400 } ++ "|b|0", { cost := (((7 / 5) : ℝ) : WithTop ℝ), nextOrderId := some "b" }),
          (latLngSegment { latitude := -(263 / 10000), longitude := 43737 / 400 } ++ "|a,b,b|0", { cost := (((18 / 5) : ℝ) : WithTop ℝ), nextOrderId := some "b" })],
        statesEvaluated := 5, memoHits := 1, maxDepth := 3,
        recursionTrace := [{ depth := 0, stateDescription := { latitude := -(263 / 10000), longitude := 43737 / 400, remainingCount := 3, timeMs := 3000 }, action := RecAction.evaluate, selectedOrder := none, cost := none },
          { depth := 1, stateDescription := { latitude := -(263 / 10000), longitude := 43737 / 400, remainingCount := 2, timeMs := 15000 }, action := RecAction.evaluate, selectedOrder := none, cost := none },
          { depth := 2, stateDescription := { latitude := -(263 / 10000), longitude := 43737 / 400, remainingCount := 1, timeMs := 27000 }, action := RecAction.evaluate, selectedOrder := none, cost := none },
          { depth := 2, stateDescription := { latitude := -(263 / 10000), longitude := 43737 / 400, remainingCount := 1, timeMs := 27000 }, action := RecAction.memoStore, selectedOrder := some "a,b", cost := some (((12 / 5) : ℝ) : WithTop ℝ) },
          { depth := 2, stateDescription := { latitude := -(263 / 10000), longitude := 43737 / 400, remainingCount := 1, timeMs := 27000 }, action := RecAction.evaluate, selectedOrder := none, cost := none },
          { depth := 2, stateDescription := { latitude := -(263 / 10000), longitude := 43737 / 400, remainingCount := 1, timeMs := 27000 }, action := RecAction.memoStore, selectedOrder := some "b", cost := some (((7 / 5) : ℝ) : WithTop ℝ) },
          { depth := 1, stateDescription := { latitude := -(263 / 10000), longitude := 43737 / 400, remainingCount := 2, timeMs := 15000 }, action := RecAction.memoStore, selectedOrder := some "b", cost := some (((18 / 5) : ℝ) : WithTop ℝ) },
          { depth := 1, stateDescription := { latitude := -(263 / 10000), longitude := 43737 / 400, remainingCount := 2, timeMs := 15000 }, action := RecAction.evaluate, selectedOrder := none, cost := none },
          { depth := 2, stateDescription := { latitude := -(263 / 10000), longitude := 43737 / 400, remainingCount := 1, timeMs := 27000 }, action := RecAction.memoHit, selectedOrder := none, cost := none }] }) := by
  norm_num [dp_recursive, bellmanLoop, memoFind, evalBookkeep, tracePush,
    describe_state, max_def, List.cons_ne_nil, wtop_two_add, wtop_one_add,
    SolveState.mk.injEq,
    DPResult.mk.injEq, Prod.ext_iff, WithTop.coe_lt_top, WithTop.coe_lt_coe,
    WithTop.lt_top_iff_ne_top, WithTop.coe_ne_top, ← WithTop.coe_add, col_dp_1, col_dp_2, col_dp_3]

set_option maxHeartbeats 2000000 in
/-- Search-phase call evaluation (eval) on state `|a|0`. -/
theorem col_dp_5 :
    dp_recursive collisionOrders collisionParams 1
      { latitude := -(263 / 10000), longitude := 43737 / 400 } ["a"] 27000 2
      { memo := [(latLngSegment { latitude := -(263 / 10000), longitude := 43737 / 400 } ++ "|a,b|0", { cost := (((12 / 5) : ℝ) : WithTop ℝ), nextOrderId := some "a,b" }),
          (latLngSegment { latitude := -(263 / 10000), longitude := 43737 / 400 } ++ "|b|0", { cost := (((7 / 5) : ℝ) : WithTop ℝ), nextOrderId := some "b" }),
          (latLngSegment { latitude := -(263 / 10000), longitude := 43737 / 400 } ++ "|a,b,b|0", { cost := (((18 / 5) : ℝ) : WithTop ℝ), nextOrderId := some "b" })],
        statesEvaluated := 5, memoHits := 1, maxDepth := 3,
        recursionTrace := [{ depth := 0, stateDescription := { latitude := -(263 / 10000), longitude := 43737 / 400, remainingCount := 3, timeMs := 3000 }, action := RecAction.evaluate, selectedOrder := none, cost := none },
          { depth := 1, stateDescription := { latitude := -(263 / 10000), longitude := 43737 / 400, remainingCount := 2, timeMs := 15000 }, action := RecAction.evaluate, selectedOrder := none, cost := none },
          { depth := 2, stateDescription := { latitude := -(263 / 10000), longitude := 43737 / 400, remainingCount := 1, timeMs := 27000 }, action := RecAction.evaluate, selectedOrder := none, cost := none },
          { depth := 2, stateDescription := { latitude := -(263 / 10000), longitude := 43737 / 400, remainingCount := 1, timeMs := 27000 }, action := RecAction.memoStore, selectedOrder := some "a,b", cost := some (((12 / 5) : ℝ) : WithTop ℝ) },
          { depth := 2, stateDescription := { latitude := -(263 / 10000), longitude := 43737 / 400, remainingCount := 1, timeMs := 27000 }, action := RecAction.evaluate, selectedOrder := none, cost := none },
          { depth := 2, stateDescription := { latitude := -(263 / 10000), longitude := 43737 / 400, remainingCount := 1, timeMs := 27000 }, action := RecAction.memoStore, selectedOrder := some "b", cost := some (((7 / 5) : ℝ) : WithTop ℝ) },
          { depth := 1, stateDescription := { latitude := -(263 / 10000), longitude := 43737 / 400, remainingCount := 2, timeMs := 15000 }, action := RecAction.memoStore, selectedOrder := some "b", cost := some (((18 / 5) : ℝ) : WithTop ℝ) },
          { depth := 1, stateDescription := { latitude := -(263 / 10000), longitude := 43737 / 400, remainingCount := 2, timeMs := 15000 }, action := RecAction.evaluate, selectedOrder := none, cost := none },
          { depth := 2, stateDescription := { latitude := -(263 / 10000), longitude := 43737 / 400, remainingCount := 1, timeMs := 27000 }, action := RecAction.memoHit, selectedOrder := none, cost := none }] } =
    ({ cost := (((7 / 5) : ℝ) : WithTop ℝ), nextOrderId := some "a" },
     { memo := [(latLngSegment { latitude := -(263 / 10000), longitude := 43737 / 400 } ++ "|a,b|0", { cost := (((12 / 5) : ℝ) : WithTop ℝ), nextOrderId := some "a,b" }),
          (latLngSegment { latitude := -(263 / 10000), longitude := 43737 / 400 } ++ "|b|0", { cost := (((7 / 5) : ℝ) : WithTop ℝ), nextOrderId := some "b" }),
          (latLngSegment { latitude := -(263 / 10000), longitude := 43737 / 400 } ++ "|a,b,b|0", { cost := (((18 / 5) : ℝ) : WithTop ℝ), nextOrderId := some "b" }),
          (latLngSegment { latitude := -(263 / 10000), longitude := 43737 / 400 } ++ "|a|0", { cost := (((7 / 5) : ℝ) : WithTop ℝ), nextOrderId := some "a" })],
        statesEvaluated := 6, memoHits := 1, maxDepth := 3,
        recursionTrace := [{ depth := 0, stateDescription := { latitude := -(263 / 10000), longitude := 43737 / 400, remainingCount := 3, timeMs := 3000 }, action := RecAction.evaluate, selectedOrder := none, cost := none },
          { depth := 1, stateDescription := { latitude := -(263 / 10000), longitude := 43737 / 400, remainingCount := 2, timeMs := 15000 }, action := RecAction.evaluate, selectedOrder := none, cost := none },
          { depth := 2, stateDescription := { latitude := -(263 / 10000), longitude := 43737 / 400, remainingCount := 1, timeMs := 27000 }, action := RecAction.evaluate, selectedOrder := none, cost := none },
          { depth := 2, stateDescription := { latitude := -(263 / 10000), longitude := 43737 / 400, remainingCount := 1, timeMs := 27000 }, action := RecAction.memoStore, selectedOrder := some "a,b", cost := some (((12 / 5) : ℝ) : WithTop ℝ) },
          { depth := 2, stateDescription := { latitude := -(263 / 10000), longitude := 43737 / 400, remainingCount := 1, timeMs := 27000 }, action := RecAction.evaluate, selectedOrder := none, cost := none },
          { depth := 2, stateDescription := { latitude := -(263 / 10000), longitude := 43737 / 400, remainingCount := 1, timeMs := 27000 }, action := RecAction.memoStore, selectedOrder := some "b", cost := some (((7 / 5) : ℝ) : WithTop ℝ) },
          { depth := 1, stateDescription := { latitude := -(263 / 10000), longitude := 43737 / 400, remainingCount := 2, timeMs := 15000 }, action := RecAction.memoStore, selectedOrder := some "b", cost := some (((18 / 5) : ℝ) : WithTop ℝ) },
          { depth := 1, stateDescription := { latitude := -(263 / 10000), longitude := 43737 / 400, remainingCount := 2, timeMs := 15000 }, action := RecAction.evaluate, selectedOrder := none, cost := none },
          { depth := 2, stateDescription := { latitude := -(263 / 10000), longitude := 43737 / 400, remainingCount := 1, timeMs := 27000 }, action := RecAction.memoHit, selectedOrder := none, cost := none },
          { depth := 2, stateDescription := { latitude := -(263 / 10000), longitude := 43737 / 400, remainingCount := 1, timeMs := 27000 }, action := RecAction.evaluate, selectedOrder := none, cost := none },
          { depth := 2, stateDescription := { latitude := -(263 / 10000), longitude := 43737 / 400, remainingCount := 1, timeMs := 27000 }, action := RecAction.memoStore, selectedOrder := some "a", cost := some (((7 / 5) : ℝ) : WithTop ℝ) }] }) := by
  norm_num [dp_recursive, bellmanLoop, memoFind, evalBookkeep, tracePush,
    describe_state, max_def, List.cons_ne_nil, wtop_two_add, wtop_one_add,
    SolveState.mk.injEq,
    DPResult.mk.injEq, Prod.ext_iff, WithTop.coe_lt_top, WithTop.coe_lt_coe,
    WithTop.lt_top_iff_ne_top, WithTop.coe_ne_top, ← WithTop.coe_add, col_dp_1, col_dp_2, col_dp_3, col_dp_4]

set_option maxHeartbeats 2000000 in
/-- Search-phase call evaluation (eval) on state `|a,a,b|0`. -/
theorem col_dp_6 :
    dp_recursive collisionOrders collisionParams 2
      { latitude := -(263 / 10000), longitude := 43737 / 400 } ["a", "a,b"] 15000 1
      { memo := [(latLngSegment { latitude := -(263 / 10000), longitude := 43737 / 400 } ++ "|a,b|0", { cost := (((12 / 5) : ℝ) : WithTop ℝ), nextOrderId := some "a,b" }),
          (latLngSegment { latitude := -(263 / 10000), longitude := 43737 / 400 } ++ "|b|0", { cost := (((7 / 5) : ℝ) : WithTop ℝ), nextOrderId := some "b" }),
          (latLngSegment { latitude := -(263 / 10000), longitude := 43737 / 400 } ++ "|a,b,b|0", { cost := (((18 / 5) : ℝ) : WithTop ℝ), nextOrderId := some "b" })],
        statesEvaluated := 4, memoHits := 0, maxDepth := 3,
        recursionTrace := [{ depth := 0, stateDescription := { latitude := -(263 / 10000), longitude := 43737 / 400, remainingCount := 3, timeMs := 3000 }, action := RecAction.evaluate, selectedOrder := none, cost := none },
          { depth := 1, stateDescription := { latitude := -(263 / 10000), longitude := 43737 / 400, remainingCount := 2, timeMs := 15000 }, action := RecAction.evaluate, selectedOrder := none, cost := none },
          { depth := 2, stateDescription := { latitude := -(263 / 10000), longitude := 43737 / 400, remainingCount := 1, timeMs := 27000 }, action := RecAction.evaluate, selectedOrder := none, cost := none },
          { depth := 2, stateDescription := { latitude := -(263 / 10000), longitude := 43737 / 400, remainingCount := 1, timeMs := 27000 }, action := RecAction.memoStore, selectedOrder := some "a,b", cost := some (((12 / 5) : ℝ) : WithTop ℝ) },
          { depth := 2, stateDescription := { latitude := -(263 / 10000), longitude := 43737 / 400, remainingCount := 1, timeMs := 27000 }, action := RecAction.evaluate, selectedOrder := none, cost := none },
          { depth := 2, stateDescription := { latitude := -(263 / 10000), longitude := 43737 / 400, remainingCount := 1, timeMs := 27000 }, action := RecAction.memoStore, selectedOrder := some "b", cost := some (((7 / 5) : ℝ) : WithTop ℝ) },
          { depth := 1, stateDescription := { latitude := -(263 / 10000), longitude := 43737 / 400, remainingCount := 2, timeMs := 15000 }, action := RecAction.memoStore, selectedOrder := some "b", cost := some (((18 / 5) : ℝ) : WithTop ℝ) }] } =
    ({ cost := (((18 / 5) : ℝ) : WithTop ℝ), nextOrderId := some "a" },
     { memo := [(latLngSegment { latitude := -(263 / 10000), longitude := 43737 / 400 } ++ "|a,b|0", { cost := (((12 / 5) : ℝ) : WithTop ℝ), nextOrderId := some "a,b" }),
          (latLngSegment { latitude := -(263 / 10000), longitude := 43737 / 400 } ++ "|b|0", { cost := (((7 / 5) : ℝ) : WithTop ℝ), nextOrderId := some "b" }),
          (latLngSegment { latitude := -(263 / 10000), longitude := 43737 / 400 } ++ "|a,b,b|0", { cost := (((18 / 5) : ℝ) : WithTop ℝ), nextOrderId := some "b" }),
          (latLngSegment { latitude := -(263 / 10000), longitude := 43737 / 400 } ++ "|a|0", { cost := (((7 / 5) : ℝ) : WithTop ℝ), nextOrderId := some "a" }),
          (latLngSegment { latitude := -(263 / 10000), longitude := 43737 / 400 } ++ "|a,a,b|0", { cost := (((18 / 5) : ℝ) : WithTop ℝ), nextOrderId := some "a" })],
        statesEvaluated := 6, memoHits := 1, maxDepth := 3,
        recursionTrace := [{ depth := 0, stateDescription := { latitude := -(263 / 10000), longitude := 43737 / 400, remainingCount := 3, timeMs := 3000 }, action := RecAction.evaluate, selectedOrder := none, cost := none },
          { depth := 1, stateDescription := { latitude := -(263 / 10000), longitude := 43737 / 400, remainingCount := 2, timeMs := 15000 }, action := RecAction.evaluate, selectedOrder := none, cost := none },
          { depth := 2, stateDescription := { latitude := -(263 / 10000), longitude := 43737 / 400, remainingCount := 1, timeMs := 27000 }, action := RecAction.evaluate, selectedOrder := none, cost := none },
          { depth := 2, stateDescription := { latitude := -(263 / 10000), longitude := 43737 / 400, remainingCount := 1, timeMs := 27000 }, action := RecAction.memoStore, selectedOrder := some "a,b", cost := some (((12 / 5) : ℝ) : WithTop ℝ) },
          { depth := 2, stateDescription := { latitude := -(263 / 10000), longitude := 43737 / 400, remainingCount := 1, timeMs := 27000 }, action := RecAction.evaluate, selectedOrder := none, cost := none },
          { depth := 2, stateDescription := { latitude := -(263 / 10000), longitude := 43737 / 400, remainingCount := 1, timeMs := 27000 }, action := RecAction.memoStore, selectedOrder := some "b", cost := some (((7 / 5) : ℝ) : WithTop ℝ) },
          { depth := 1, stateDescription := { latitude := -(263 / 10000), longitude := 43737 / 400, remainingCount := 2, timeMs := 15000 }, action := RecAction.memoStore, selectedOrder := some "b", cost := some (((18 / 5) : ℝ) : WithTop ℝ) },
          { depth := 1, stateDescription := { latitude := -(263 / 10000), longitude := 43737 / 400, remainingCount := 2, timeMs := 15000 }, action := RecAction.evaluate, selectedOrder := none, cost := none },
          { depth := 2, stateDescription := { latitude := -(263 / 10000), longitude := 43737 / 400, remainingCount := 1, timeMs := 27000 }, action := RecAction.memoHit, selectedOrder := none, cost := none },
          { depth := 2, stateDescription := { latitude := -(263 / 10000), longitude := 43737 / 400, remainingCount := 1, timeMs := 27000 }, action := RecAction.evaluate, selectedOrder := none, cost := none },
          { depth := 2, stateDescription := { latitude := -(263 / 10000), longitude := 43737 / 400, remainingCount := 1, timeMs := 27000 }, action := RecAction.memoStore, selectedOrder := some "a", cost := some (((7 / 5) : ℝ) : WithTop ℝ) },
          { depth := 1, stateDescription := { latitude := -(263 / 10000), longitude := 43737 / 400, remainingCount := 2, timeMs := 15000 }, action := RecAction.memoStore, selectedOrder := some "a", cost := some (((18 / 5) : ℝ) : WithTop ℝ) }] }) := by
  norm_num [dp_recursive, bellmanLoop, memoFind, evalBookkeep, tracePush,
    describe_state, max_def, List.cons_ne_nil, wtop_two_add, wtop_one_add,
    SolveState.mk.injEq,
    DPResult.mk.injEq, Prod.ext_iff, WithTop.coe_lt_top, WithTop.coe_lt_coe,
    WithTop.lt_top_iff_ne_top, WithTop.coe_ne_top, ← WithTop.coe_add, col_dp_1, col_dp_2, col_dp_3, col_dp_4, col_dp_5]

set_option maxHeartbeats 2000000 in
/-- Search-phase call evaluation (hit) on state `|a,b|0`. -/
theorem col_dp_7 :
    dp_recursive collisionOrders collisionParams 2
      { latitude := -(263 / 10000), longitude := 43737 / 400 } ["a", "b"] 15000 1
      { memo := [(latLngSegment { latitude := -(263 / 10000), longitude := 43737 / 400 } ++ "|a,b|0", { cost := (((12 / 5) : ℝ) : WithTop ℝ), nextOrderId := some "a,b" }),
          (latLngSegment { latitude := -(263 / 10000), longitude := 43737 / 400 } ++ "|b|0", { cost := (((7 / 5) : ℝ) : WithTop ℝ), nextOrderId := some "b" }),
          (latLngSegment { latitude := -(263 / 10000), longitude := 43737 / 400 } ++ "|a,b,b|0", { cost := (((18 / 5) : ℝ) : WithTop ℝ), nextOrderId := some "b" }),
          (latLngSegment { latitude := -(263 / 10000), longitude := 43737 / 400 } ++ "|a|0", { cost := (((7 / 5) : ℝ) : WithTop ℝ), nextOrderId := some "a" }),
          (latLngSegment { latitude := -(263 / 10000), longitude := 43737 / 400 } ++ "|a,a,b|0", { cost := (((18 / 5) : ℝ) : WithTop ℝ), nextOrderId := some "a" })],
        statesEvaluated := 6, memoHits := 1, maxDepth := 3,
        recursionTrace := [{ depth := 0, stateDescription := { latitude := -(263 / 10000), longitude := 43737 / 400, remainingCount := 3, timeMs := 3000 }, action := RecAction.evaluate, selectedOrder := none, cost := none },
          { depth := 1, stateDescription := { latitude := -(263 / 10000), longitude := 43737 / 400, remainingCount := 2, timeMs := 15000 }, action := RecAction.evaluate, selectedOrder := none, cost := none },
          { depth := 2, stateDescription := { latitude := -(263 / 10000), longitude := 43737 / 400, remainingCount := 1, timeMs := 27000 }, action := RecAction.evaluate, selectedOrder := none, cost := none },
          { depth := 2, stateDescription := { latitude := -(263 / 10000), longitude := 43737 / 400, remainingCount := 1, timeMs := 27000 }, action := RecAction.memoStore, selectedOrder := some "a,b", cost := some (((12 / 5) : ℝ) : WithTop ℝ) },
          { depth := 2, stateDescription := { latitude := -(263 / 10000), longitude := 43737 / 400, remainingCount := 1, timeMs := 27000 }, action := RecAction.evaluate, selectedOrder := none, cost := none },
          { depth := 2, stateDescription := { latitude := -(263 / 10000), longitude := 43737 / 400, remainingCount := 1, timeMs := 27000 }, action := RecAction.memoStore, selectedOrder := some "b", cost := some (((7 / 5) : ℝ) : WithTop ℝ) },
          { depth := 1, stateDescription := { latitude := -(263 / 10000), longitude := 43737 / 400, remainingCount := 2, timeMs := 15000 }, action := RecAction.memoStore, selectedOrder := some "b", cost := some (((18 / 5) : ℝ) : WithTop ℝ) },
          { depth := 1, stateDescription := { latitude := -(263 / 10000), longitude := 43737 / 400, remainingCount := 2, timeMs := 15000 }, action := RecAction.evaluate, selectedOrder := none, cost := none },
          { depth := 2, stateDescription := { latitude := -(263 / 10000), longitude := 43737 / 400, remainingCount := 1, timeMs := 27000 }, action := RecAction.memoHit, selectedOrder := none, cost := none },
          { depth := 2, stateDescription := { latitude := -(263 / 10000), longitude := 43737 / 400, remainingCount := 1, timeMs := 27000 }, action := RecAction.evaluate, selectedOrder := none, cost := none },
          { depth := 2, stateDescription := { latitude := -(263 / 10000), longitude := 43737 / 400, remainingCount := 1, timeMs := 27000 }, action := RecAction.memoStore, selectedOrder := some "a", cost := some (((7 / 5) : ℝ) : WithTop ℝ) },
          { depth := 1, stateDescription := { latitude := -(263 / 10000), longitude := 43737 / 400, remainingCount := 2, timeMs := 15000 }, action := RecAction.memoStore, selectedOrder := some "a", cost := some (((18 / 5) : ℝ) : WithTop ℝ) }] } =
    ({ cost := (((12 / 5) : ℝ) : WithTop ℝ), nextOrderId := some "a,b" },
     { memo := [(latLngSegment { latitude := -(263 / 10000), longitude := 43737 / 400 } ++ "|a,b|0", { cost := (((12 / 5) : ℝ) : WithTop ℝ), nextOrderId := some "a,b" }),
          (latLngSegment { latitude := -(263 / 10000), longitude := 43737 / 400 } ++ "|b|0", { cost := (((7 / 5) : ℝ) : WithTop ℝ), nextOrderId := some "b" }),
          (latLngSegment { latitude := -(263 / 10000), longitude := 43737 / 400 } ++ "|a,b,b|0", { cost := (((18 / 5) : ℝ) : WithTop ℝ), nextOrderId := some "b" }),
          (latLngSegment { latitude := -(263 / 10000), longitude := 43737 / 400 } ++ "|a|0", { cost := (((7 / 5) : ℝ) : WithTop ℝ), nextOrderId := some "a" }),
          (latLngSegment { latitude := -(263 / 10000), longitude := 43737 / 400 } ++ "|a,a,b|0", { cost := (((18 / 5) : ℝ) : WithTop ℝ), nextOrderId := some "a" })],
        statesEvaluated := 6, memoHits := 2, maxDepth := 3,
        recursionTrace := [{ depth := 0, stateDescription := { latitude := -(263 / 10000), longitude := 43737 / 400, remainingCount := 3, timeMs := 3000 }, action := RecAction.evaluate, selectedOrder := none, cost := none },
          { depth := 1, stateDescription := { latitude := -(263 / 10000), longitude := 43737 / 400, remainingCount := 2, timeMs := 15000 }, action := RecAction.evaluate, selectedOrder := none, cost := none },
          { depth := 2, stateDescription := { latitude := -(263 / 10000), longitude := 43737 / 400, remainingCount := 1, timeMs := 27000 }, action := RecAction.evaluate, selectedOrder := none, cost := none },
          { depth := 2, stateDescription := { latitude := -(263 / 10000), longitude := 43737 / 400, remainingCount := 1, timeMs := 27000 }, action := RecAction.memoStore, selectedOrder := some "a,b", cost := some (((12 / 5) : ℝ) : WithTop ℝ) },
          { depth := 2, stateDescription := { latitude := -(263 / 10000), longitude := 43737 / 400, remainingCount := 1, timeMs := 27000 }, action := RecAction.evaluate, selectedOrder := none, cost := none },
          { depth := 2, stateDescription := { latitude := -(263 / 10000), longitude := 43737 / 400, remainingCount := 1, timeMs := 27000 }, action := RecAction.memoStore, selectedOrder := some "b", cost := some (((7 / 5) : ℝ) : WithTop ℝ) },
          { depth := 1, stateDescription := { latitude := -(263 / 10000), longitude := 43737 / 400, remainingCount := 2, timeMs := 15000 }, action := RecAction.memoStore, selectedOrder := some "b", cost := some (((18 / 5) : ℝ) : WithTop ℝ) },
          { depth := 1, stateDescription := { latitude := -(263 / 10000), longitude := 43737 / 400, remainingCount := 2, timeMs := 15000 }, action := RecAction.evaluate, selectedOrder := none, cost := none },
          { depth := 2, stateDescription := { latitude := -(263 / 10000), longitude := 43737 / 400, remainingCount := 1, timeMs := 27000 }, action := RecAction.memoHit, selectedOrder := none, cost := none },
          { depth := 2, stateDescription := { latitude := -(263 / 10000), longitude := 43737 / 400, remainingCount := 1, timeMs := 27000 }, action := RecAction.evaluate, selectedOrder := none, cost := none },
          { depth := 2, stateDescription := { latitude := -(263 / 10000), longitude := 43737 / 400, remainingCount := 1, timeMs := 27000 }, action := RecAction.memoStore, selectedOrder := some "a", cost := some (((7 / 5) : ℝ) : WithTop ℝ) },
          { depth := 1, stateDescription := { latitude := -(263 / 10000), longitude := 43737 / 400, remainingCount := 2, timeMs := 15000 }, action := RecAction.memoStore, selectedOrder := some "a", cost := some (((18 / 5) : ℝ) : WithTop ℝ) },
          { depth := 1, stateDescription := { latitude := -(263 / 10000), longitude := 43737 / 400, remainingCount := 2, timeMs := 15000 }, action := RecAction.memoHit, selectedOrder := none, cost := none }] }) := by
  norm_num [dp_recursive, bellmanLoop, memoFind, evalBookkeep, tracePush,
    describe_state, max_def, List.cons_ne_nil, wtop_two_add, wtop_one_add,
    SolveState.mk.injEq,
    DPResult.mk.injEq, Prod.ext_iff, WithTop.coe_lt_top, WithTop.coe_lt_coe,
    WithTop.lt_top_iff_ne_top, WithTop.coe_ne_top, ← WithTop.coe_add, col_dp_1, col_dp_2, col_dp_3, col_dp_4, col_dp_5, col_dp_6]

set_option maxHeartbeats 2000000 in
/-- Search-phase call evaluation (eval) on state `|a,a,b,b|0`. -/
theorem col_dp_8 :
    dp_recursive collisionOrders collisionParams 3
      { latitude := -(263 / 10000), longitude := 43737 / 400 } ["a", "b", "a,b"] 3000 0
      { memo := [], statesEvaluated := 0, memoHits := 0, maxDepth := 0, recursionTrace := [] } =
    ({ cost := (((22 / 5) : ℝ) : WithTop ℝ), nextOrderId := some "a,b" },
     { memo := [(latLngSegment { latitude := -(263 / 10000), longitude := 43737 / 400 } ++ "|a,b|0", { cost := (((12 / 5) : ℝ) : WithTop ℝ), nextOrderId := some "a,b" }),
          (latLngSegment { latitude := -(263 / 10000), longitude := 43737 / 400 } ++ "|b|0", { cost := (((7 / 5) : ℝ) : WithTop ℝ), nextOrderId := some "b" }),
          (latLngSegment { latitude := -(263 / 10000), longitude := 43737 / 400 } ++ "|a,b,b|0", { cost := (((18 / 5) : ℝ) : WithTop ℝ), nextOrderId := some "b" }),
          (latLngSegment { latitude := -(263 / 10000), longitude := 43737 / 400 } ++ "|a|0", { cost := (((7 / 5) : ℝ) : WithTop ℝ), nextOrderId := some "a" }),
          (latLngSegment { latitude := -(263 / 10000), longitude := 43737 / 400 } ++ "|a,a,b|0", { cost := (((18 / 5) : ℝ) : WithTop ℝ), nextOrderId := some "a" }),
          (latLngSegment { latitude := -(263 / 10000), longitude := 43737 / 400 } ++ "|a,a,b,b|0", { cost := (((22 / 5) : ℝ) : WithTop ℝ), nextOrderId := some "a,b" })],
        statesEvaluated := 6, memoHits := 2, maxDepth := 3,
        recursionTrace := [{ depth := 0, stateDescription := { latitude := -(263 / 10000), longitude := 43737 / 400, remainingCount := 3, timeMs := 3000 }, action := RecAction.evaluate, selectedOrder := none, cost := none },
          { depth := 1, stateDescription := { latitude := -(263 / 10000), longitude := 43737 / 400, remainingCount := 2, timeMs := 15000 }, action := RecAction.evaluate, selectedOrder := none, cost := none },
          { depth := 2, stateDescription := { latitude := -(263 / 10000), longitude := 43737 / 400, remainingCount := 1, timeMs := 27000 }, action := RecAction.evaluate, selectedOrder := none, cost := none },
          { depth := 2, stateDescription := { latitude := -(263 / 10000), longitude := 43737 / 400, remainingCount := 1, timeMs := 27000 }, action := RecAction.memoStore, selectedOrder := some "a,b", cost := some (((12 / 5) : ℝ) : WithTop ℝ) },
          { depth := 2, stateDescription := { latitude := -(263 / 10000), longitude := 43737 / 400, remainingCount := 1, timeMs := 27000 }, action := RecAction.evaluate, selectedOrder := none, cost := none },
          { depth := 2, stateDescription := { latitude := -(263 / 10000), longitude := 43737 / 400, remainingCount := 1, timeMs := 27000 }, action := RecAction.memoStore, selectedOrder := some "b", cost := some (((7 / 5) : ℝ) : WithTop ℝ) },
          { depth := 1, stateDescription := { latitude := -(263 / 10000), longitude := 43737 / 400, remainingCount := 2, timeMs := 15000 }, action := RecAction.memoStore, selectedOrder := some "b", cost := some (((18 / 5) : ℝ) : WithTop ℝ) },
          { depth := 1, stateDescription := { latitude := -(263 / 10000), longitude := 43737 / 400, remainingCount := 2, timeMs := 15000 }, action := RecAction.evaluate, selectedOrder := none, cost := none },
          { depth := 2, stateDescription := { latitude := -(263 / 10000), longitude := 43737 / 400, remainingCount := 1, timeMs := 27000 }, action := RecAction.memoHit, selectedOrder := none, cost := none },
          { depth := 2, stateDescription := { latitude := -(263 / 10000), longitude := 43737 / 400, remainingCount := 1, timeMs := 27000 }, action := RecAction.evaluate, selectedOrder := none, cost := none },
          { depth := 2, stateDescription := { latitude := -(263 / 10000), longitude := 43737 / 400, remainingCount := 1, timeMs := 27000 }, action := RecAction.memoStore, selectedOrder := some "a", cost := some (((7 / 5) : ℝ) : WithTop ℝ) },
          { depth := 1, stateDescription := { latitude := -(263 / 10000), longitude := 43737 / 400, remainingCount := 2, timeMs := 15000 }, action := RecAction.memoStore, selectedOrder := some "a", cost := some (((18 / 5) : ℝ) : WithTop ℝ) },
          { depth := 1, stateDescription := { latitude := -(263 / 10000), longitude := 43737 / 400, remainingCount := 2, timeMs := 15000 }, action := RecAction.memoHit, selectedOrder := none, cost := none },
          { depth := 0, stateDescription := { latitude := -(263 / 10000), longitude := 43737 / 400, remainingCount := 3, timeMs := 3000 }, action := RecAction.memoStore, selectedOrder := some "a,b", cost := some (((22 / 5) : ℝ) : WithTop ℝ) }] }) := by
  norm_num [dp_recursive, bellmanLoop, memoFind, evalBookkeep, tracePush,
    describe_state, max_def, List.cons_ne_nil, wtop_two_add, wtop_one_add,
    SolveState.mk.injEq,
    DPResult.mk.injEq, Prod.ext_iff, WithTop.coe_lt_top, WithTop.coe_lt_coe,
    WithTop.lt_top_iff_ne_top, WithTop.coe_ne_top, ← WithTop.coe_add, col_dp_1, col_dp_2, col_dp_3, col_dp_4, col_dp_5, col_dp_6, col_dp_7]

set_option maxHeartbeats 3000000 in
/-- The memo table left by the search phase of the key-collision run, in
insertion order.  The state after delivering `"a,b"` first (remaining
`{"a","b"}`) and the state holding only `"a,b"` share the key suffix
`"|a,b|0"`, so the search reuses the singleton entry for the pair state. -/
theorem collision_search_memo :
    (dp_recursive collisionOrders collisionParams 3
      { latitude := -(263 / 10000), longitude := 43737 / 400 } ["a", "b", "a,b"] 3000 0
      { memo := [], statesEvaluated := 0, memoHits := 0, maxDepth := 0,
        recursionTrace := [] }).2.memo =
    [(latLngSegment { latitude := -(263 / 10000), longitude := 43737 / 400 } ++ "|a,b|0", { cost := ((12 / 5 : ℝ) : WithTop ℝ), nextOrderId := some "a,b" }),
       (latLngSegment { latitude := -(263 / 10000), longitude := 43737 / 400 } ++ "|b|0", { cost := ((7 / 5 : ℝ) : WithTop ℝ), nextOrderId := some "b" }),
       (latLngSegment { latitude := -(263 / 10000), longitude := 43737 / 400 } ++ "|a,b,b|0", { cost := ((18 / 5 : ℝ) : WithTop ℝ), nextOrderId := some "b" }),
       (latLngSegment { latitude := -(263 / 10000), longitude := 43737 / 400 } ++ "|a|0", { cost := ((7 / 5 : ℝ) : WithTop ℝ), nextOrderId := some "a" }),
       (latLngSegment { latitude := -(263 / 10000), longitude := 43737 / 400 } ++ "|a,a,b|0", { cost := ((18 / 5 : ℝ) : WithTop ℝ), nextOrderId := some "a" }),
       (latLngSegment { latitude := -(263 / 10000), longitude := 43737 / 400 } ++ "|a,a,b,b|0", { cost := ((22 / 5 : ℝ) : WithTop ℝ), nextOrderId := some "a,b" })] := by
  rw [col_dp_8]

set_option maxHeartbeats 3000000 in
/-- Replay of the policy extraction over that memo: the loop delivers
`"a,b"` three times (the collided entry's decision is not in the
remaining set, so the `delete` is a no-op), then misses the key with
rounded minute 1 and breaks, leaving `"a"` and `"b"` undelivered. -/
theorem collision_extract_eval :
    (extractLoop collisionOrders collisionParams
      [(latLngSegment { latitude := -(263 / 10000), longitude := 43737 / 400 } ++ "|a,b|0", { cost := ((12 / 5 : ℝ) : WithTop ℝ), nextOrderId := some "a,b" }),
       (latLngSegment { latitude := -(263 / 10000), longitude := 43737 / 400 } ++ "|b|0", { cost := ((7 / 5 : ℝ) : WithTop ℝ), nextOrderId := some "b" }),
       (latLngSegment { latitude := -(263 / 10000), longitude := 43737 / 400 } ++ "|a,b,b|0", { cost := ((18 / 5 : ℝ) : WithTop ℝ), nextOrderId := some "b" }),
       (latLngSegment { latitude := -(263 / 10000), longitude := 43737 / 400 } ++ "|a|0", { cost := ((7 / 5 : ℝ) : WithTop ℝ), nextOrderId := some "a" }),
       (latLngSegment { latitude := -(263 / 10000), longitude := 43737 / 400 } ++ "|a,a,b|0", { cost := ((18 / 5 : ℝ) : WithTop ℝ), nextOrderId := some "a" }),
       (latLngSegment { latitude := -(263 / 10000), longitude := 43737 / 400 } ++ "|a,a,b,b|0", { cost := ((22 / 5 : ℝ) : WithTop ℝ), nextOrderId := some "a,b" })] 4
      { currentLoc := { latitude := -(263 / 10000), longitude := 43737 / 400 }, currentTime := 3000,
        remainingIds := ["a", "b", "a,b"], stepNumber := 1, sequence := [],
        keyDecisions := [], totalDistance := 0, totalTravelTime := 0,
        totalDelayPenalty := 0, totalCost := 0, totalDistanceCost := 0,
        totalTimeCost := 0, totalDelayCost := 0 }).1.sequence.map
        (fun s => s.order.order_id) = ["a,b", "a,b", "a,b"] ∧
    (extractLoop collisionOrders collisionParams
      [(latLngSegment { latitude := -(263 / 10000), longitude := 43737 / 400 } ++ "|a,b|0", { cost := ((12 / 5 : ℝ) : WithTop ℝ), nextOrderId := some "a,b" }),
       (latLngSegment { latitude := -(263 / 10000), longitude := 43737 / 400 } ++ "|b|0", { cost := ((7 / 5 : ℝ) : WithTop ℝ), nextOrderId := some "b" }),
       (latLngSegment { latitude := -(263 / 10000), longitude := 43737 / 400 } ++ "|a,b,b|0", { cost := ((18 / 5 : ℝ) : WithTop ℝ), nextOrderId := some "b" }),
       (latLngSegment { latitude := -(263 / 10000), longitude := 43737 / 400 } ++ "|a|0", { cost := ((7 / 5 : ℝ) : WithTop ℝ), nextOrderId := some "a" }),
       (latLngSegment { latitude := -(263 / 10000), longitude := 43737 / 400 } ++ "|a,a,b|0", { cost := ((18 / 5 : ℝ) : WithTop ℝ), nextOrderId := some "a" }),
       (latLngSegment { latitude := -(263 / 10000), longitude := 43737 / 400 } ++ "|a,a,b,b|0", { cost := ((22 / 5 : ℝ) : WithTop ℝ), nextOrderId := some "a,b" })] 4
      { currentLoc := { latitude := -(263 / 10000), longitude := 43737 / 400 }, currentTime := 3000,
        remainingIds := ["a", "b", "a,b"], stepNumber := 1, sequence := [],
        keyDecisions := [], totalDistance := 0, totalTravelTime := 0,
        totalDelayPenalty := 0, totalCost := 0, totalDistanceCost := 0,
        totalTimeCost := 0, totalDelayCost := 0 }).1.totalCost = 33 / 5 ∧
    (extractLoop collisionOrders collisionParams
      [(latLngSegment { latitude := -(263 / 10000), longitude := 43737 / 400 } ++ "|a,b|0", { cost := ((12 / 5 : ℝ) : WithTop ℝ), nextOrderId := some "a,b" }),
       (latLngSegment { latitude := -(263 / 10000), longitude := 43737 / 400 } ++ "|b|0", { cost := ((7 / 5 : ℝ) : WithTop ℝ), nextOrderId := some "b" }),
       (latLngSegment { latitude := -(263 / 10000), longitude := 43737 / 400 } ++ "|a,b,b|0", { cost := ((18 / 5 : ℝ) : WithTop ℝ), nextOrderId := some "b" }),
       (latLngSegment { latitude := -(263 / 10000), longitude := 43737 / 400 } ++ "|a|0", { cost := ((7 / 5 : ℝ) : WithTop ℝ), nextOrderId := some "a" }),
       (latLngSegment { latitude := -(263 / 10000), longitude := 43737 / 400 } ++ "|a,a,b|0", { cost := ((18 / 5 : ℝ) : WithTop ℝ), nextOrderId := some "a" }),
       (latLngSegment { latitude := -(263 / 10000), longitude := 43737 / 400 } ++ "|a,a,b,b|0", { cost := ((22 / 5 : ℝ) : WithTop ℝ), nextOrderId := some "a,b" })] 4
      { currentLoc := { latitude := -(263 / 10000), longitude := 43737 / 400 }, currentTime := 3000,
        remainingIds := ["a", "b", "a,b"], stepNumber := 1, sequence := [],
        keyDecisions := [], totalDistance := 0, totalTravelTime := 0,
        totalDelayPenalty := 0, totalCost := 0, totalDistanceCost := 0,
        totalTimeCost := 0, totalDelayCost := 0 }).2 = true := by
  norm_num [extractLoop.eq_def, extractTransition_eq_searchTransition, memoFind,
    List.cons_ne_nil, WithTop.coe_lt_top, WithTop.coe_lt_coe, ← WithTop.coe_add]

/-- Basic equations of `minList`. -/
theorem minList_nil : minList [] = ⊤ := rfl

/-- Cons equation of `minList`. -/
theorem minList_cons (x : WithTop ℝ) (xs : List (WithTop ℝ)) :
    minList (x :: xs) = min x (minList xs) := rfl

/-- Basic equations of `firstMinIdx`. -/
theorem firstMinIdx_cons (x : WithTop ℝ) (xs : List (WithTop ℝ)) :
    firstMinIdx (x :: xs) = if x ≤ minList xs then 0 else firstMinIdx xs + 1 := rfl

/-- Pure order algebra of one step of the strict-improvement fold: the
head candidate wins exactly when it is at most the minimum of the tail
and beats the incumbent, mirroring the `<`-only update of the source. -/
theorem first_argmin_cons (orderId : String) (rest : List String)
    (t0 : WithTop ℝ) (ts' : List (WithTop ℝ)) (m : WithTop ℝ) (b : Option String) :
    (if t0 < m then
        (if minList ts' < t0 then rest.get? (firstMinIdx ts') else some orderId)
      else
        (if minList ts' < m then rest.get? (firstMinIdx ts') else b)) =
    (if minList (t0 :: ts') < m then
        (orderId :: rest).get? (firstMinIdx (t0 :: ts')) else b) := by
  rw [minList_cons, firstMinIdx_cons]
  by_cases h1 : t0 < m <;> by_cases h2 : minList ts' < t0
  · rw [if_pos h1, if_pos h2, if_pos (by rw [min_lt_iff]; exact Or.inl h1),
      if_neg (not_le.mpr h2)]
    simp
  · rw [if_pos h1, if_neg h2, if_pos (by rw [min_lt_iff]; exact Or.inl h1),
      if_pos (not_lt.mp h2)]
    simp
  · rw [if_neg h1, if_neg (not_le.mpr h2), min_eq_right (le_of_lt h2)]
    by_cases h3 : minList ts' < m
    · rw [if_pos h3, if_pos h3]; simp
    · rw [if_neg h3, if_neg h3]
  · rw [if_neg h1, min_eq_left (not_lt.mp h2), if_neg h1,
      if_neg (fun hc => h1 (lt_of_le_of_lt (not_lt.mp h2) hc))]

/-- C2 core lemma: the Bellman loop of `dp_recursive`, started with
incumbent `(m, b)`, selects the first candidate (in iteration order)
whose total attains the minimum of the candidate totals, and keeps the
incumbent if no total strictly beats it — candidates that merely tie are
never chosen over an earlier one. -/
theorem bellmanLoop_first_argmin (orders : List Order) (params : Parameters)
    (fuel : ℕ) (loc : Location) (rem : List String) (t : ℝ) (depth : ℕ) :
    ∀ (cands : List String) (m : WithTop ℝ) (b : Option String) (st : SolveState),
      (bellmanLoop orders params fuel loc rem t depth cands m b st).2.1 =
        if minList (candTotals orders params fuel loc rem t depth cands st) < m then
          cands.get? (firstMinIdx (candTotals orders params fuel loc rem t depth cands st))
        else b := by
  intro cands
  induction cands with
  | nil =>
    intro m b st
    simp [bellmanLoop, candTotals, minList_nil, not_top_lt]
  | cons orderId rest ih =>
    intro m b st
    rw [bellmanLoop, candTotals]
    rw [apply_ite (fun r : WithTop ℝ × Option String × SolveState => r.2.1)]
    rw [ih, ih]
    exact first_argmin_cons orderId rest _ _ m b

/-- C2: on a memo miss with a non-empty remaining set, `dp_recursive`
records as its decision the first candidate in the iteration order of
the remaining set whose candidate total (step cost plus cost-to-go, in
the order the loop computes them) attains the minimum; a later candidate
replaces the incumbent only when its total is strictly smaller, so
exactly-tied candidates never displace an earlier one.  (When no total
is finite the incumbent `null` survives, as in the source.) -/
theorem dp_recursive_tie_break (orders : List Order) (params : Parameters)
    (fuel : ℕ) (loc : Location) (rem : List String) (t : ℝ) (depth : ℕ)
    (st : SolveState) (hne : rem ≠ [])
    (hmiss : memoFind st.memo (create_state_key loc rem t) = none) :
    (dp_recursive orders params (fuel + 1) loc rem t depth st).1.nextOrderId =
      if minList (candTotals orders params fuel loc rem t depth rem
          (evalBookkeep loc rem t depth { st with maxDepth := max st.maxDepth depth })) < ⊤ then
        rem.get? (firstMinIdx (candTotals orders params fuel loc rem t depth rem
          (evalBookkeep loc rem t depth { st with maxDepth := max st.maxDepth depth })))
      else none := by
  rw [dp_recursive]
  simp only [if_neg hne, hmiss]
  rw [bellmanLoop_first_argmin]

/-- Candidate totals of the tie scenario: both candidates cost exactly
zero, an exact tie. -/
theorem tie_candTotals :
    candTotals tieOrders tieParams 1
      { latitude := -(263 / 10000), longitude := 43737 / 400 } ["x", "y"] 0 0 ["x", "y"]
      (evalBookkeep { latitude := -(263 / 10000), longitude := 43737 / 400 } ["x", "y"] 0 0
        { initialSolveState with maxDepth := max initialSolveState.maxDepth 0 }) =
      [((0 : ℝ) : WithTop ℝ), ((0 : ℝ) : WithTop ℝ)] := by
  norm_num [candTotals, dp_recursive, bellmanLoop, memoFind, evalBookkeep, tracePush,
    describe_state, initialSolveState, max_def, List.cons_ne_nil,
    WithTop.coe_lt_top, WithTop.coe_lt_coe, WithTop.lt_top_iff_ne_top,
    WithTop.coe_ne_top, ← WithTop.coe_add]

/-- C2 (witness): on the two exactly-tied requests `"x"` and `"y"` the
hypotheses of the tie-break theorem hold at the initial state and the
selected next request is `"x"`, the first in iteration order. -/
theorem dp_recursive_tie_break_witness :
    (["x", "y"] : List String) ≠ [] ∧
    memoFind initialSolveState.memo
      (create_state_key { latitude := -(263 / 10000), longitude := 43737 / 400 }
        ["x", "y"] 0) = none ∧
    (dp_recursive tieOrders tieParams (1 + 1)
      { latitude := -(263 / 10000), longitude := 43737 / 400 } ["x", "y"] 0 0
      initialSolveState).1.nextOrderId = some "x" := by
  refine ⟨by simp, rfl, ?_⟩
  rw [dp_recursive_tie_break tieOrders tieParams 1
    { latitude := -(263 / 10000), longitude := 43737 / 400 } ["x", "y"] 0 0
    initialSolveState (by simp) rfl]
  rw [tie_candTotals]
  simp [minList_cons, minList_nil, firstMinIdx_cons, min_self, WithTop.coe_lt_top]

set_option maxHeartbeats 2000000 in
/-- Evaluation of the key-collision run of `dp_solve`: the extracted
schedule delivers the request `"a,b"` three times (never `"a"` or
`"b"`), the loop then breaks silently on a memo miss, and `dp_solve`
returns normally with total cost `33/5`. -/
theorem collision_run_eval :
    (dp_solve 4 collisionOrders collisionParams).1.sequence.map
      (fun s => s.order.order_id) = ["a,b", "a,b", "a,b"] ∧
    (dp_solve 4 collisionOrders collisionParams).1.totalCost = 33 / 5 ∧
    (dp_solve 4 collisionOrders collisionParams).2 = true := by
  norm_num [dp_solve, startingTimeOf, jsSetDedup, min_self,
    List.filter_cons, List.filter_nil,
    collision_search_memo, collision_extract_eval]

/-!
## Claim theorems
-/

/-- C4 (amended): when the policy-extraction loop meets a memo miss, or
a cached entry whose decision is `null`, it stops and silently returns
the state accumulated so far as a normally completed run — no
internal-consistency fault is raised or surfaced to the caller. -/
theorem extractLoop_break_silently (orders : List Order) (params : Parameters)
    (memo : List (String × DPResult)) (fuel : ℕ) (es : ExtractState) :
    (memoFind memo (create_state_key es.currentLoc es.remainingIds es.currentTime) = none →
      extractLoop orders params memo (fuel + 1) es = (es, true)) ∧
    (∀ r : DPResult,
      memoFind memo (create_state_key es.currentLoc es.remainingIds es.currentTime) = some r →
      r.nextOrderId = none →
      extractLoop orders params memo (fuel + 1) es = (es, true)) := by
  constructor
  · intro h
    rw [extractLoop.eq_def]
    by_cases hrem : es.remainingIds = []
    · simp [hrem]
    · simp [hrem, h]
  · intro r hr hn
    rw [extractLoop.eq_def]
    by_cases hrem : es.remainingIds = []
    · simp [hrem]
    · simp [hrem, hr, hn]

/-- C4 (witness for the amended theorem): with an empty memo and one
request still remaining, the loop returns the untouched state as a
normal completion. -/
theorem extractLoop_break_silently_witness :
    memoFind [] (create_state_key breakDemoState.currentLoc breakDemoState.remainingIds
      breakDemoState.currentTime) = none ∧
    extractLoop [] zeroWeightParams [] (0 + 1) breakDemoState = (breakDemoState, true) :=
  ⟨rfl, (extractLoop_break_silently [] zeroWeightParams [] 0 breakDemoState).1 rfl⟩

/-- C4 (counterexample): on the validated key-collision input the memo
miss during extraction produces a silent truncation: `dp_solve` returns
normally (no fault value of any kind) with a three-step schedule in
which the request `"b"` never appears. -/
theorem dp_solve_truncates_without_fault :
    (dp_solve 4 collisionOrders collisionParams).2 = true ∧
    (dp_solve 4 collisionOrders collisionParams).1.sequence.length = 3 ∧
    "b" ∉ (dp_solve 4 collisionOrders collisionParams).1.sequence.map
      (fun s => s.order.order_id) := by
  have h := collision_run_eval
  refine ⟨h.2.2, ?_, ?_⟩
  · have := congrArg List.length h.1
    simpa [List.length_map] using this
  · rw [h.1]; simp

/-- C1: on the validated key-collision input (3 ≤ 6 requests, unique
non-empty ids, speed 1 > 0, weights 0/0/1 ≥ 0) the schedule returned by
`dp_solve` has total weighted cost `33/5`, strictly above the cost
`23/5` of the permutation `(a, b, "a,b")` computed from the depot start
with the solver's own arrival-time recurrence: brute-force enumeration
beats the engine, refuting the optimality claim on this input. -/
theorem dp_solve_suboptimal_on_collision_input :
    (dp_solve 4 collisionOrders collisionParams).1.totalCost = 33 / 5 ∧
    bruteOrderingCost collisionOrders collisionParams
      [collisionOrderA, collisionOrderB, collisionOrderAB] = 23 / 5 ∧
    bruteOrderingCost collisionOrders collisionParams
        [collisionOrderA, collisionOrderB, collisionOrderAB] <
      (dp_solve 4 collisionOrders collisionParams).1.totalCost ∧
    (dp_solve 4 collisionOrders collisionParams).2 = true := by
  have h := collision_run_eval
  have hb : bruteOrderingCost collisionOrders collisionParams
      [collisionOrderA, collisionOrderB, collisionOrderAB] = 23 / 5 := by
    norm_num [bruteOrderingCost, orderingCostFrom, startingTimeOf, min_self]
  refine ⟨h.2.1, hb, ?_, h.2.2⟩
  rw [hb, h.2.1]
  norm_num

/-- C8: on the validated key-collision input the extraction loop does
not deliver every request exactly once: the returned sequence is the
request `"a,b"` three times, and `"a"` is never delivered, even though
the run completes normally. -/
theorem dp_solve_duplicate_delivery_on_collision_input :
    (dp_solve 4 collisionOrders collisionParams).1.sequence.map
      (fun s => s.order.order_id) = ["a,b", "a,b", "a,b"] ∧
    "a" ∉ (dp_solve 4 collisionOrders collisionParams).1.sequence.map
      (fun s => s.order.order_id) ∧
    (dp_solve 4 collisionOrders collisionParams).2 = true := by
  have h := collision_run_eval
  refine ⟨h.1, ?_, h.2.2⟩
  rw [h.1]; simp

/-- C6: `create_state_key` is not collision-free: at the same position
and clock, the distinct remaining sets `{"a", "b"}` and `{"a,b"}` (the
comma-carrying id is legal — unique and non-empty) produce the same key,
because the sorted ids are joined with the same separator that may occur
inside an id. -/
theorem create_state_key_collision :
    create_state_key { latitude := -(263 / 10000), longitude := 43737 / 400 }
        ["a", "b"] 3000 =
      create_state_key { latitude := -(263 / 10000), longitude := 43737 / 400 }
        ["a,b"] 3000 ∧
    ("a" ∈ (["a", "b"] : List String) ∧ "a" ∉ (["a,b"] : List String)) := by
  refine ⟨?_, by simp, by simp⟩
  rw [key_apb_3000, key_ab_3000]

/-- C3 (counterexample): for an empty request list `dp_solve` raises
nothing: it returns the ordinary empty result (empty schedule, zero
total cost, extraction finished normally) instead of an `InputFault`. -/
theorem dp_solve_accepts_empty_without_fault :
    (dp_solve 1 [] zeroWeightParams).1.sequence = [] ∧
    (dp_solve 1 [] zeroWeightParams).1.totalCost = 0 ∧
    (dp_solve 1 [] zeroWeightParams).2 = true := by
  simp [dp_solve, dp_recursive, jsSetDedup, startingTimeOf]
  rw [extractLoop.eq_def]
  simp

/-- C3 (amended): `dp_solve` performs no input validation at all — an
empty request list yields the empty result, a negative average speed
and a negative weight are both accepted and produce normally completed
(nonsensical) results, such as a negative total weighted cost. -/
theorem dp_solve_performs_no_input_validation :
    (∀ p : Parameters,
      (dp_solve 1 [] p).1.sequence = [] ∧ (dp_solve 1 [] p).2 = true) ∧
    ((dp_solve 2 [plainOrder] negSpeedParams).1.sequence.length = 1 ∧
      (dp_solve 2 [plainOrder] negSpeedParams).2 = true) ∧
    ((dp_solve 2 [plainOrder] negWeightParams).1.totalCost = -1 ∧
      (dp_solve 2 [plainOrder] negWeightParams).2 = true) := by
  refine ⟨fun p => ?_,
    ⟨neg_speed_run_eval.1, neg_speed_run_eval.2.2⟩,
    ⟨neg_weight_run_eval.1, neg_weight_run_eval.2.2⟩⟩
  constructor
  · simp [dp_solve, dp_recursive, jsSetDedup, startingTimeOf]
    rw [extractLoop.eq_def]; simp
  · simp [dp_solve, dp_recursive, jsSetDedup, startingTimeOf]
    rw [extractLoop.eq_def]; simp

/-- C5 (counterexample): with all three weights zero (legal parameters)
the total weighted cost is zero and the narrative percentage
attributions of `dp_solve` are the non-finite marker produced by the
unguarded `0/0` division — not zero. -/
theorem tradeoff_percentages_not_zero_on_zero_total :
    (dp_solve 2 [zeroCostOrder] zeroWeightParams).1.totalCost = 0 ∧
    (dp_solve 2 [zeroCostOrder] zeroWeightParams).1.explanation.tradeoffAnalysis.distancePctOfTotal
      = none ∧
    ¬((dp_solve 2 [zeroCostOrder] zeroWeightParams).1.explanation.tradeoffAnalysis.distancePctOfTotal
      = some 0) := by
  refine ⟨zero_cost_run_eval.1, zero_cost_run_eval.2.1, ?_⟩
  rw [zero_cost_run_eval.2.1]
  simp

/-- C5 (amended): the percentage cost attributions in the trade-off
narrative are exactly the unguarded divisions `component/total·100`: for
every run they are `jsDivPct` of the component contribution and the
total cost, which is the non-finite marker (JavaScript `NaN`) whenever
the total cost is zero, and the finite percentage otherwise; no guard
reports zero. -/
theorem tradeoff_percentages_unguarded :
    (∀ (fuel : ℕ) (orders : List Order) (params : Parameters),
      (dp_solve fuel orders params).1.explanation.tradeoffAnalysis.distancePctOfTotal =
        jsDivPct (dp_solve fuel orders params).1.costContributions.distanceContribution
          (dp_solve fuel orders params).1.totalCost) ∧
    (∀ c total : ℝ, total = 0 → jsDivPct c total = none) ∧
    (∀ c total : ℝ, total ≠ 0 → jsDivPct c total = some (c / total * 100)) := by
  refine ⟨fun fuel orders params => rfl, fun c total h => ?_, fun c total h => ?_⟩
  · simp [jsDivPct, h]
  · simp [jsDivPct, h]

/-- C5 (witness for the amended theorem): at component 5 and total 0 the
percentage is the non-finite marker. -/
theorem tradeoff_percentages_unguarded_witness :
    (0 : ℝ) = 0 ∧ jsDivPct 5 0 = none ∧ (2 : ℝ) ≠ 0 ∧ jsDivPct 5 2 = some (5 / 2 * 100) :=
  ⟨rfl, tradeoff_percentages_unguarded.2.1 5 0 rfl,
    by norm_num, tradeoff_percentages_unguarded.2.2 5 2 (by norm_num)⟩

end RouteGenius